import Mathlib

/-
Verification of the autonomous aiming subsystem of the slingshot game:
a shallow embedding of the AI controller's physics stepper, vector
helpers, trajectory solvers, target selectors and launch sequencer,
with machine-checked statements about them.  Floating-point arithmetic
of the C++ source is idealised as exact real arithmetic.
-/

noncomputable section

namespace AngryBird

/-- 2D vector of reals, modelling the game's 2D float vector type. -/
structure Vec2 where
  x : ℝ
  y : ℝ

namespace Vec2

def add (a b : Vec2) : Vec2 := ⟨a.x + b.x, a.y + b.y⟩

def sub (a b : Vec2) : Vec2 := ⟨a.x - b.x, a.y - b.y⟩

def smul (c : ℝ) (v : Vec2) : Vec2 := ⟨c * v.x, c * v.y⟩

def neg (v : Vec2) : Vec2 := ⟨-v.x, -v.y⟩

/-- Componentwise division of a vector by a scalar, mirroring the C++
vector / float operator. -/
def divR (v : Vec2) (c : ℝ) : Vec2 := ⟨v.x / c, v.y / c⟩

instance : Add Vec2 := ⟨add⟩

instance : Sub Vec2 := ⟨sub⟩

instance : Neg Vec2 := ⟨neg⟩

instance : SMul ℝ Vec2 := ⟨smul⟩

end Vec2

-- Global configuration constants mirrored from Config.hpp.
namespace config

def kPixelsPerMeter : ℝ := 30

def kGravity : ℝ := 9.8 * kPixelsPerMeter

def kMaxBodySpeed : ℝ := 800

def kAirResistanceAccel : ℝ := -0.25

def kMaxPullDistance : ℝ := 220

def kSlingshotStiffness : ℝ := 10

def kWindowWidth : ℝ := 1920

def kWindowHeight : ℝ := 1080

namespace bird_speed

def kRedInitialMax : ℝ := 600

def kRedMaxSpeed : ℝ := 800

def kYellowInitialMax : ℝ := 500

def kYellowMaxSpeed : ℝ := 1500

def kBombInitialMax : ℝ := 550

def kBombMaxSpeed : ℝ := 800

end bird_speed

end config

/-- Projectile kind, mirroring the BirdType enum. -/
inductive BirdType where
  | Red
  | Yellow
  | Bomb
deriving DecidableEq

/-- Euclidean norm, mirroring AIController length. -/
def length (v : Vec2) : ℝ := Real.sqrt (v.x * v.x + v.y * v.y)

/-- Euclidean distance between two points, mirroring AIController distance. -/
def distance (a b : Vec2) : ℝ :=
  Real.sqrt ((a.x - b.x) * (a.x - b.x) + (a.y - b.y) * (a.y - b.y))

/-- AIController normalize: zero vector below the 1e-4 length guard,
otherwise componentwise division by the length. -/
def normalize (v : Vec2) : Vec2 :=
  if length v < 0.0001 then ⟨0, 0⟩ else ⟨v.x / length v, v.y / length v⟩

/-- AIController applyPhysicsStep: gravity, then the air-resistance term
(note the source double-negates the already negative drag constant), then
the speed clamp, then position integration. -/
def applyPhysicsStep (pos vel : Vec2) (dt maxSpeed : ℝ) : Vec2 × Vec2 :=
  let vel1 : Vec2 := ⟨vel.x, vel.y + config.kGravity * dt⟩
  let speed := length vel1
  let vel2 :=
    if speed > 0.001 then
      let airResistanceAccelPixels := config.kAirResistanceAccel * config.kPixelsPerMeter
      let resistanceDir := normalize vel1
      let resistanceAccel := airResistanceAccelPixels • (-resistanceDir)
      vel1 + dt • resistanceAccel
    else vel1
  let speed2 := if speed > 0.001 then length vel2 else speed
  let vel3 := if speed2 > maxSpeed then maxSpeed • normalize vel2 else vel2
  let pos2 := pos + dt • vel3
  (pos2, vel3)

/-- Division that fails on a zero denominator, used to audit the real
divisions performed by the vector helpers. -/
def divCheck (a b : ℝ) : Option ℝ := if b = 0 then none else some (a / b)

/-- normalize with every division routed through divCheck: returns none
exactly when a division by zero would occur. -/
def normalizeChecked (v : Vec2) : Option Vec2 :=
  if length v < 0.0001 then some ⟨0, 0⟩
  else do
    let xo ← divCheck v.x (length v)
    let yo ← divCheck v.y (length v)
    pure ⟨xo, yo⟩

/-- applyPhysicsStep with every division routed through divCheck:
returns none exactly when a division by zero would occur. -/
def applyPhysicsStepChecked (pos vel : Vec2) (dt maxSpeed : ℝ) : Option (Vec2 × Vec2) := do
  let vel1 : Vec2 := ⟨vel.x, vel.y + config.kGravity * dt⟩
  let speed := length vel1
  let vel2 ←
    if speed > 0.001 then do
      let airResistanceAccelPixels := config.kAirResistanceAccel * config.kPixelsPerMeter
      let resistanceDir ← normalizeChecked vel1
      let resistanceAccel := airResistanceAccelPixels • (-resistanceDir)
      pure (vel1 + dt • resistanceAccel)
    else pure vel1
  let speed2 := if speed > 0.001 then length vel2 else speed
  let vel3 ←
    if speed2 > maxSpeed then do
      let d ← normalizeChecked vel2
      pure (maxSpeed • d)
    else pure vel2
  pure (pos + dt • vel3, vel3)

/-- Bird activateSkill, Yellow branch: the velocity transformation applied
to a launched accelerating-type bird (speed doubled, capped at the
per-type maximum maxSpeed). -/
def activateSkillYellowVel (v : Vec2) (maxSpeed : ℝ) : Vec2 :=
  let speedSq := v.x * v.x + v.y * v.y
  let speed := Real.sqrt (max 0.01 speedSq)
  let newSpeed := min (speed * 2) maxSpeed
  if speed > 0.01 then (newSpeed / speed) • v
  else (maxSpeed * 0.3) • (⟨1, 0⟩ : Vec2)

/-- The mid-flight doubling event applied by calculateYellowBirdTrajectory
to the initial velocity before the first integration step (the solver
schedules the skill immediately upon launch). -/
def yellowTrajectorySkillVel (vel : Vec2) : Vec2 :=
  let maxSpeed := config.bird_speed.kYellowMaxSpeed
  let currentSpeed := length vel
  if currentSpeed > 0.001 then (min (currentSpeed * 2) maxSpeed) • normalize vel
  else vel

-- ========== The state-machine controller (AIController of the first
-- header, implemented in the bisection-based translation unit) ==========

/-- Reference to a live pig entity (only its liveness is observed). -/
structure PigRef where
  destroyed : Bool
deriving DecidableEq

/-- AITarget: aiming target descriptor of the state-machine controller. -/
structure AITarget where
  position : Vec2
  priority : ℝ
  distance : ℝ
  isExposed : Bool
  protectionLevel : ℤ
  pig : Option PigRef

/-- AIAimResult of the state-machine controller. -/
structure AIAimResult where
  dragStart : Vec2
  dragEnd : Vec2
  pull : Vec2
  skillActivationTime : ℝ
  isValid : Bool

/-- AIState of the state-machine controller. -/
inductive AIStateA where
  | WaitingForBird
  | Analyzing
  | Aiming
  | ReadyToLaunch
deriving DecidableEq

/-- Member state of the state-machine controller (fields touched by
setEnabled and the aim cycle). -/
structure CtrlAState where
  enabled : Bool
  aiming : Bool
  shouldLaunch : Bool
  shouldActivateSkill : Bool
  waitTimer : ℝ
  aimTimer : ℝ
  aimProgress : ℝ
  state : AIStateA
  currentTarget : Option AITarget
  currentAim : AIAimResult
  aimTrajectory : List Vec2

/-- setEnabled of the state-machine controller: early-returns when the
flag does not change; on disable clears the aiming/launch/skill flags and
the current target, and nothing else. -/
def setEnabledA (s : CtrlAState) (enabled : Bool) : CtrlAState :=
  if enabled = s.enabled then s
  else if enabled then
    { s with enabled := true, state := AIStateA.WaitingForBird, aiming := false,
             shouldLaunch := false, shouldActivateSkill := false, waitTimer := 0,
             aimTimer := 0, aimProgress := 0, currentTarget := none }
  else
    { s with enabled := false, aiming := false, shouldLaunch := false,
             shouldActivateSkill := false, currentTarget := none }

-- ========== The grid-search controller (AIController of the second
-- header, implemented in the grid-search translation unit) ==========

/-- Target kind discriminator of TargetInfo. -/
inductive TargetType where
  | Pig
  | Block
deriving DecidableEq

/-- Pig sub-type. -/
inductive PigType where
  | Small
  | Medium
  | Large
deriving DecidableEq

/-- TargetInfo: target descriptor of the grid-search controller. -/
structure TargetInfo where
  type : TargetType
  position : Vec2
  size : Vec2
  health : ℤ
  maxHealth : ℤ
  threatValue : ℝ
  attackValue : ℝ
  obstacleLayerCount : ℤ
  materialStrength : ℝ
  pigType : PigType
  hasEntity : Bool

/-- Default-constructed TargetInfo (entityPtr null). -/
def TargetInfo.mk0 : TargetInfo :=
  { type := TargetType.Pig, position := ⟨0, 0⟩, size := ⟨0, 0⟩, health := 0,
    maxHealth := 0, threatValue := 0, attackValue := 0, obstacleLayerCount := 0,
    materialStrength := 240, pigType := PigType.Small, hasEntity := false }

/-- AimingInfo: aim result of the grid-search controller. -/
structure AimingInfo where
  isValid : Bool
  dragStart : Vec2
  dragEnd : Vec2
  angle : ℝ
  power : ℝ
  skillActivationTime : ℝ
  target : TargetInfo
  trajectoryError : ℝ
  trajectoryPoints : List Vec2
  predictedHitPoint : Vec2

/-- Default-constructed AimingInfo. -/
def AimingInfo.mk0 : AimingInfo :=
  { isValid := false, dragStart := ⟨0, 0⟩, dragEnd := ⟨0, 0⟩, angle := 0,
    power := 0, skillActivationTime := 0, target := TargetInfo.mk0,
    trajectoryError := 0, trajectoryPoints := [], predictedHitPoint := ⟨0, 0⟩ }

/-- TrajectoryResult: output of one forward trajectory simulation. -/
structure TrajectoryResult where
  points : List Vec2
  hitTarget : Bool
  hitTime : ℝ
  hitPoint : Vec2
  minDistanceToTarget : ℝ
  finalVelocity : ℝ

/-- Member state of the grid-search controller. -/
structure CtrlBState where
  enabled : Bool
  shouldLaunch : Bool
  shouldActivateSkill : Bool
  currentAim : AimingInfo
  allTargets : List TargetInfo
  pigTargets : List TargetInfo
  blockTargets : List TargetInfo
  slingshotPos : Vec2
  trajectoryPreview : List Vec2
  timeSinceLastAnalysis : ℝ
  launchCooldown : ℝ
  waitingForBirdsLogged : Bool
  birdDisappearWaitTimer : ℝ
  lastBirdWasActive : Bool
  trajectoryPreviewTimer : ℝ
  trajectoryPreviewReady : Bool

/-- setEnabled of the grid-search controller: the inline header setter
only assigns the enabled flag and clears nothing. -/
def setEnabledB (s : CtrlBState) (enabled : Bool) : CtrlBState :=
  { s with enabled := enabled }

/-- Largest finite float value, the initialisation of best-score
accumulators in the source. -/
def floatMax : ℝ := 2 ^ 128 - 2 ^ 104

-- ========== Target selection strategies (state-machine controller) ==========

/-- The skip condition of the selection loops: target.pig is non-null and
already destroyed. -/
def targetGone (t : AITarget) : Bool :=
  match t.pig with
  | none => false
  | some p => p.destroyed

/-- First pass of the direct-type selector: nearest exposed target, with a
penalty of 500 beyond 600 px. -/
def redPass1Step (s : Option AITarget × ℝ) (t : AITarget) : Option AITarget × ℝ :=
  if targetGone t then s
  else if !t.isExposed then s
  else
    let score := if t.distance > 600 then t.distance + 500 else t.distance
    if score < s.2 then (some t, score) else s

/-- Fallback pass of the direct-type selector: any live target, distance
plus a flat occlusion penalty of 1000. -/
def redPass2Step (s : Option AITarget × ℝ) (t : AITarget) : Option AITarget × ℝ :=
  if targetGone t then s
  else
    let score := t.distance + 1000
    if score < s.2 then (some t, score) else s

/-- selectRedBirdTarget: nearest exposed live target first, then any live
target with a penalty. -/
def selectRedBirdTarget (targets : List AITarget) : Option AITarget :=
  if targets.isEmpty then none
  else
    let s1 := targets.foldl redPass1Step (none, floatMax)
    if s1.1.isSome then s1.1
    else (targets.foldl redPass2Step s1).1

/-- First pass of the accelerating-type selector: far exposed targets, or
mid-range occluded targets at a 0.8 discount. -/
def yellowPass1Step (s : Option AITarget × ℝ) (t : AITarget) : Option AITarget × ℝ :=
  if targetGone t then s
  else if t.isExposed ∧ t.distance > 600 then
    (if t.distance > s.2 then (some t, t.distance) else s)
  else if ¬ (t.isExposed = true) ∧ 400 ≤ t.distance ∧ t.distance ≤ 700 then
    (if t.distance * 0.8 > s.2 then (some t, t.distance * 0.8) else s)
  else s

/-- Second pass of the accelerating-type selector: any live target beyond
400 px, occluded ones at a 0.7 discount. -/
def yellowPass2Step (s : Option AITarget × ℝ) (t : AITarget) : Option AITarget × ℝ :=
  if targetGone t then s
  else if t.distance > 400 then
    let score := t.distance * (if t.isExposed then 1 else 0.7)
    if score > s.2 then (some t, score) else s
  else s

/-- Final fallback of the accelerating-type selector: any live target,
scored by distance. -/
def yellowPass3Step (s : Option AITarget × ℝ) (t : AITarget) : Option AITarget × ℝ :=
  if targetGone t then s
  else if t.distance > s.2 then (some t, t.distance) else s

/-- selectYellowBirdTarget: three tiers of fallback ending in any live
target. -/
def selectYellowBirdTarget (targets : List AITarget) : Option AITarget :=
  if targets.isEmpty then none
  else
    let s1 := targets.foldl yellowPass1Step (none, -1)
    if s1.1.isSome then s1.1
    else
      let s2 := targets.foldl yellowPass2Step s1
      if s2.1.isSome then s2.1
      else (targets.foldl yellowPass3Step s2).1

/-- Main pass of the area-effect selector: deepest protection first,
ties broken by shorter distance. -/
def bombPass1Step (s : Option AITarget × ℤ × ℝ) (t : AITarget) :
    Option AITarget × ℤ × ℝ :=
  if targetGone t then s
  else if t.protectionLevel > s.2.1 then (some t, t.protectionLevel, t.distance)
  else if t.protectionLevel = s.2.1 ∧ t.distance < s.2.2 then
    (some t, s.2.1, t.distance)
  else s

/-- Fallback of the area-effect selector: nearest live target. -/
def bombPass2Step (s : Option AITarget × ℤ × ℝ) (t : AITarget) :
    Option AITarget × ℤ × ℝ :=
  if targetGone t then s
  else if t.distance < s.2.2 then (some t, s.2.1, t.distance) else s

/-- selectBombBirdTarget: protection-depth ranking plus a nearest-target
fallback (the blocks argument is unused, as in the source). -/
def selectBombBirdTarget (targets : List AITarget) (_blocks : List Unit) :
    Option AITarget :=
  if targets.isEmpty then none
  else
    let s1 := targets.foldl bombPass1Step (none, -1, floatMax)
    if s1.1.isSome then s1.1
    else (targets.foldl bombPass2Step s1).1

-- ========== Occlusion / protection calculator ==========

/-- A live obstacle as seen by the occlusion calculator: position and
destroyed flag. -/
structure BlockInfo where
  position : Vec2
  destroyed : Bool

/-- calculateOcclusionLevel: samples the launch-to-target line every
20 px; each sample point contributes one occlusion when any live block
lies within 40x0.7 px of it (the break in the inner loop deduplicates per
sample point); then every live block within 100 px of the target adds one
more.  The two accumulations of the single C++ counter are written as two
folds over the same counter. -/
def calculateOcclusionLevel (fromPos toPos : Vec2) (blocks : List BlockInfo) : ℤ :=
  let direction := toPos - fromPos
  let totalDistance := length direction
  if totalDistance < 1 then 0
  else
    let dirN : Vec2 := ⟨direction.x / totalDistance, direction.y / totalDistance⟩
    let samplePoints : ℕ := ⌊totalDistance / 20⌋₊
    let count1 : ℤ :=
      (List.range' 1 (samplePoints - 1)).foldl
        (fun acc (i : ℕ) =>
          let t : ℝ := (i : ℝ) / (samplePoints : ℝ)
          let samplePos := fromPos + (totalDistance * t) • dirN
          if blocks.any (fun block =>
              if block.destroyed then false
              else if distance samplePos block.position < 40 * 0.7 then true
              else false)
          then acc + 1 else acc) 0
    blocks.foldl
      (fun acc block =>
        if block.destroyed then acc
        else if distance block.position toPos < 100 then acc + 1 else acc)
      count1

/-- Modelled from the spec: the path-occlusion measure the specification
describes, counting one occlusion per distinct obstacle whose footprint
intersects the sampled launch-to-target segment, deduplicated per
obstacle, plus the local-protection count of obstacles within 100 px of
the target.  Written for comparison with calculateOcclusionLevel; same
sampling scheme and footprint radius as the code. -/
def specProtectionDepth (fromPos toPos : Vec2) (blocks : List BlockInfo) : ℤ :=
  let direction := toPos - fromPos
  let totalDistance := length direction
  if totalDistance < 1 then 0
  else
    let dirN : Vec2 := ⟨direction.x / totalDistance, direction.y / totalDistance⟩
    let samplePoints : ℕ := ⌊totalDistance / 20⌋₊
    let pathPart : ℤ :=
      ((blocks.filter (fun block => !block.destroyed)).filter
        (fun block =>
          (List.range' 1 (samplePoints - 1)).any (fun (i : ℕ) =>
            let t : ℝ := (i : ℝ) / (samplePoints : ℝ)
            let samplePos := fromPos + (totalDistance * t) • dirN
            if distance samplePos block.position < 40 * 0.7 then true
            else false))).length
    let localPart : ℤ :=
      ((blocks.filter (fun block => !block.destroyed)).filter
        (fun block =>
          if distance block.position toPos < 100 then true else false)).length
    pathPart + localPart

/-- Whether sample point i of the launch-to-target line has some live
block within the 40x0.7 footprint radius (the per-sample-point occlusion
test of calculateOcclusionLevel). -/
def sampleOccludedAt (fromPos toPos : Vec2) (blocks : List BlockInfo) (i : ℕ) : Bool :=
  let direction := toPos - fromPos
  let totalDistance := length direction
  let dirN : Vec2 := ⟨direction.x / totalDistance, direction.y / totalDistance⟩
  let samplePoints : ℕ := ⌊totalDistance / 20⌋₊
  let t : ℝ := (i : ℝ) / (samplePoints : ℝ)
  let samplePos := fromPos + (totalDistance * t) • dirN
  blocks.any (fun block =>
    if block.destroyed then false
    else if distance samplePos block.position < 40 * 0.7 then true
    else false)

/-- Whether a live block lies within 100 px of the target (the
local-protection test of calculateOcclusionLevel). -/
def nearTargetBlock (toPos : Vec2) (block : BlockInfo) : Bool :=
  if block.destroyed then false
  else if distance block.position toPos < 100 then true
  else false

-- ========== Launch sequencer of the game loop (handleAIControl) ==========

/-- Per-bird information read by the launch sequencer. -/
structure BirdInfo where
  launched : Bool
  destroyed : Bool
  hasBody : Bool
  bodyActive : Bool
  type : BirdType
  position : Vec2

/-- A pig as present in the game scene (only liveness is relevant). -/
structure PigInfo where
  destroyed : Bool
  position : Vec2

/-- The game-side state read by handleAIControl.  The scene's pig list
and the aim's selected-target reference are part of the state; the
sequencer body never consults them. -/
structure GameAIState where
  aiModeEnabled : Bool
  birds : List BirdInfo
  pigs : List PigInfo
  selectedTargetPig : Option ℕ
  shouldLaunch : Bool
  shouldActivateSkill : Bool
  aimIsValid : Bool
  aimDragEnd : Vec2
  slingshotPos : Vec2

/-- handleAIControl reduced to its launch decision: returns true exactly
when launchCurrentBird() is invoked on this tick. -/
def handleAIControl (s : GameAIState) : Bool :=
  if s.aiModeEnabled = false then false
  else if s.birds.isEmpty then false
  else
    match s.birds.find? (fun b => !b.launched) with
    | none => false
    | some currentBird =>
      if s.shouldLaunch then
        if currentBird.hasBody ∧ currentBird.launched = false then
          if distance currentBird.position s.slingshotPos > 20 then false
          else if s.aimIsValid then true
          else false
        else false
      else false

-- ========== Grid-search trajectory solver ==========
-- The forward trajectory simulation is the solver's oracle (the design
-- notes require the search to treat the stepper as an opaque oracle), so
-- the solver is parameterised over it: calcTraj receives the candidate
-- initial velocity and the per-type simulation horizon.

/-- Per-type maximum initial speed used by the grid solver (for the
accelerating type the solver assumes the doubled launch speed). -/
def gridBaseMaxSpeed (birdType : BirdType) : ℝ :=
  match birdType with
  | BirdType.Red => config.bird_speed.kRedInitialMax
  | BirdType.Yellow => config.bird_speed.kYellowInitialMax * 2
  | BirdType.Bomb => config.bird_speed.kBombInitialMax

/-- velocityFromAngleAndPower: polar launch velocity, up is negative y. -/
def velocityFromAngleAndPower (angle power : ℝ) (birdType : BirdType) : Vec2 :=
  let angleRad := angle * Real.pi / 180
  let speed := power / 100 * gridBaseMaxSpeed birdType
  ⟨Real.cos angleRad * speed, -(Real.sin angleRad) * speed⟩

/-- One candidate evaluation shared by the coarse and fine loops: clamp
the candidate velocity, query the trajectory oracle, convert the
closest-approach distance into a percentage of target size. -/
def candEval (calcTraj : Vec2 → ℝ → TrajectoryResult) (birdType : BirdType)
    (target : TargetInfo) (angle power : ℝ) : Vec2 × TrajectoryResult × ℝ :=
  let velocity := velocityFromAngleAndPower angle power birdType
  let speed := length velocity
  let velocity :=
    if speed > gridBaseMaxSpeed birdType then gridBaseMaxSpeed birdType • normalize velocity
    else velocity
  let maxTrajectoryTime : ℝ := if birdType = BirdType.Bomb then 8 else 5
  let traj := calcTraj velocity maxTrajectoryTime
  let error := if traj.hitTarget then 0 else traj.minDistanceToTarget
  let targetSize := max target.size.x target.size.y
  (velocity, traj, error / targetSize * 100)

/-- The running state of the grid search: best aim so far and best error
percentage so far. -/
def GridState : Type := AimingInfo × ℝ

/-- The error percentage every candidate receives from a constant
trajectory oracle returning T. -/
def constErrPercent (T : TrajectoryResult) (target : TargetInfo) : ℝ :=
  (if T.hitTarget = true then 0 else T.minDistanceToTarget)
    / max target.size.x target.size.y * 100

/-- Body of the main grid loop for one (angle, power) candidate: update
the best aim when the error percentage improves; the drag-end is the
clamped pull, and the pull is recomputed after a velocity re-clamp. -/
def evalCandidate (calcTraj : Vec2 → ℝ → TrajectoryResult) (birdType : BirdType)
    (target : TargetInfo) (slingshotPos : Vec2) (useSkill : Bool)
    (s : GridState) (angle power : ℝ) : GridState :=
  let ce := candEval calcTraj birdType target angle power
  let velocity := ce.1
  let traj := ce.2.1
  let errorPercent := ce.2.2
  if errorPercent < s.2 then
    let pull := Vec2.divR (-velocity) config.kSlingshotStiffness
    let pullDist := length pull
    let maxPull :=
      if birdType = BirdType.Yellow then config.kMaxPullDistance * 2
      else config.kMaxPullDistance
    let pv : Vec2 × Vec2 :=
      if pullDist > maxPull then
        let pull2 := maxPull • normalize pull
        let velocity2 := config.kSlingshotStiffness • (-pull2)
        let speed2 := length velocity2
        if speed2 > gridBaseMaxSpeed birdType then
          let velocity3 := gridBaseMaxSpeed birdType • normalize velocity2
          let pull3 := Vec2.divR (-velocity3) config.kSlingshotStiffness
          (pull3, velocity3)
        else (pull2, velocity2)
      else (pull, velocity)
    let aim : AimingInfo :=
      { s.1 with isValid := true, angle := angle, power := power,
                 trajectoryError := errorPercent, trajectoryPoints := traj.points,
                 predictedHitPoint := traj.hitPoint,
                 dragEnd := slingshotPos + pv.1,
                 skillActivationTime :=
                   if birdType = BirdType.Yellow ∧ useSkill = true then 0
                   else s.1.skillActivationTime }
    (aim, errorPercent)
  else s

/-- Body of the fine-search loop for one (fineAngle, power) candidate:
identical to the main body except that the final pull is not recomputed
after the inner velocity re-clamp, exactly as in the source. -/
def evalCandidateFine (calcTraj : Vec2 → ℝ → TrajectoryResult) (birdType : BirdType)
    (target : TargetInfo) (slingshotPos : Vec2) (useSkill : Bool)
    (s : GridState) (angle power : ℝ) : GridState :=
  let ce := candEval calcTraj birdType target angle power
  let velocity := ce.1
  let traj := ce.2.1
  let errorPercent := ce.2.2
  if errorPercent < s.2 then
    let pull := Vec2.divR (-velocity) config.kSlingshotStiffness
    let pullDist := length pull
    let maxPull :=
      if birdType = BirdType.Yellow then config.kMaxPullDistance * 2
      else config.kMaxPullDistance
    let pv : Vec2 × Vec2 :=
      if pullDist > maxPull then
        let pull2 := maxPull • normalize pull
        let velocity2 := config.kSlingshotStiffness • (-pull2)
        let speed2 := length velocity2
        if speed2 > gridBaseMaxSpeed birdType then
          let velocity3 := gridBaseMaxSpeed birdType • normalize velocity2
          (pull2, velocity3)
        else (pull2, velocity2)
      else (pull, velocity)
    let aim : AimingInfo :=
      { s.1 with isValid := true, angle := angle, power := power,
                 trajectoryError := errorPercent, trajectoryPoints := traj.points,
                 predictedHitPoint := traj.hitPoint,
                 dragEnd := slingshotPos + pv.1,
                 skillActivationTime :=
                   if birdType = BirdType.Yellow ∧ useSkill = true then 0
                   else s.1.skillActivationTime }
    (aim, errorPercent)
  else s

/-- The inner power loop: power from 20 to 100 in steps of 5. -/
def powerLoop (step : GridState → ℝ → GridState) : ℕ → ℝ → GridState → GridState
  | 0, _, s => s
  | fuel + 1, power, s =>
    if power ≤ 100 then powerLoop step fuel (power + 5) (step s power) else s

/-- The fine-search angle loop: one-degree steps in a window around the
current angle, skipping the already evaluated angle itself. -/
def fineLoop (stepC : GridState → ℝ → ℝ → GridState) (angle fineEnd : ℝ) :
    ℕ → ℝ → GridState → GridState
  | 0, _, s => s
  | fuel + 1, fa, s =>
    if fa ≤ fineEnd then
      let s2 := if fa = angle then s else powerLoop (fun t p => stepC t fa p) 17 20 s
      fineLoop stepC angle fineEnd fuel (fa + 1) s2
    else s

/-- The outer angle loop of the grid search, with the fine-search pass
when the best error has dropped below 3 percent and the early break when
it drops below 1 percent. -/
def angleLoop (stepMain stepFine : GridState → ℝ → ℝ → GridState)
    (angleStep : ℝ) : ℕ → ℝ → GridState → GridState
  | 0, _, s => s
  | fuel + 1, angle, s =>
    if angle ≤ 85 then
      let s1 :=
        if s.2 < 3 ∧ angle > 5 then
          let fineAngleStart := max 5 (angle - 4)
          let fineAngleEnd := min 85 (angle + 4)
          fineLoop stepFine angle fineAngleEnd 12 fineAngleStart s
        else s
      let s2 := powerLoop (fun t p => stepMain t angle p) 17 20 s1
      if s2.2 < 1 then s2
      else angleLoop stepMain stepFine angleStep fuel (angle + angleStep) s2
    else s

/-- optimizeLaunchParameters: bounded grid search over angle and power
with local refinement, driven by the trajectory oracle calcTraj. -/
def optimizeLaunchParameters (calcTraj : Vec2 → ℝ → TrajectoryResult)
    (birdType : BirdType) (target : TargetInfo) (slingshotPos : Vec2) : AimingInfo :=
  let useSkill : Bool := birdType = BirdType.Yellow
  let angleStep : ℝ := if birdType = BirdType.Bomb then 1.5 else 2
  let final := angleLoop
    (evalCandidate calcTraj birdType target slingshotPos useSkill)
    (evalCandidateFine calcTraj birdType target slingshotPos useSkill)
    angleStep 60 5 (AimingInfo.mk0, floatMax)
  final.1

-- ========== Bisection trajectory solver ==========
-- Its two classifiers, checkTrajectoryPass and validateTrajectoryWithTime,
-- are forward simulations and enter as oracle parameters: checkPass yields
-- the pass result (-1 invalid, 0 below, 1 above) and the closest-approach
-- distance; validate yields the strict validity flag and the distance.

/-- Two-argument arctangent, mirroring std atan2. -/
def atan2 (y x : ℝ) : ℝ :=
  if x > 0 then Real.arctan (y / x)
  else if x < 0 ∧ y ≥ 0 then Real.arctan (y / x) + Real.pi
  else if x < 0 ∧ y < 0 then Real.arctan (y / x) - Real.pi
  else if x = 0 ∧ y > 0 then Real.pi / 2
  else if x = 0 ∧ y < 0 then -(Real.pi / 2)
  else 0

/-- Running state of the bisection over angle. -/
structure BisectState where
  lowAngle : ℝ
  highAngle : ℝ
  bestPull : Vec2
  bestDistance : ℝ
  foundValid : Bool

/-- One speed tier's bisection over angle (at most ten iterations),
mirroring the binary-search loop of calculateTrajectory. -/
def binarySearchLoop (checkPass : Vec2 → ℤ × ℝ) (validate : Vec2 → Bool × ℝ)
    (r minSpeed currentMaxSpeed : ℝ) : ℕ → BisectState → BisectState
  | 0, st => st
  | fuel + 1, st =>
    let midAngle := (st.lowAngle + st.highAngle) * 0.5
    let pull : Vec2 := ⟨Real.cos midAngle * r, Real.sin midAngle * r⟩
    let v0 := config.kSlingshotStiffness • pull
    let speed := length v0
    if speed < minSpeed then
      binarySearchLoop checkPass validate r minSpeed currentMaxSpeed fuel
        { st with lowAngle := midAngle }
    else
      let pv : Vec2 × Vec2 :=
        if speed > currentMaxSpeed then
          let v1 := (currentMaxSpeed / speed) • v0
          (v1, Vec2.divR v1 config.kSlingshotStiffness)
        else (v0, pull)
      let pr := checkPass pv.1
      let st1 :=
        if pr.1 ≠ -1 ∧ pr.2 < st.bestDistance then
          { st with bestPull := pv.2, bestDistance := pr.2 }
        else st
      if pr.1 ≠ -1 ∧ pr.2 ≤ 30 then
        { st1 with bestPull := pv.2, bestDistance := pr.2, foundValid := true }
      else if pr.1 = -1 then
        binarySearchLoop checkPass validate r minSpeed currentMaxSpeed fuel
          { st1 with lowAngle := midAngle }
      else
        let st2 :=
          if pr.1 = 0 then { st1 with highAngle := midAngle }
          else { st1 with lowAngle := midAngle }
        if |st2.highAngle - st2.lowAngle| < 0.01 then
          let finalAngle := (st2.lowAngle + st2.highAngle) * 0.5
          let finalPull : Vec2 := ⟨Real.cos finalAngle * r, Real.sin finalAngle * r⟩
          let finalV0 := config.kSlingshotStiffness • finalPull
          let finalSpeed := length finalV0
          let fpv : Vec2 × Vec2 :=
            if finalSpeed > currentMaxSpeed then
              let f1 := (currentMaxSpeed / finalSpeed) • finalV0
              (f1, Vec2.divR f1 config.kSlingshotStiffness)
            else (finalV0, finalPull)
          let vr := validate fpv.1
          if vr.1 = true ∧ vr.2 ≤ 30 then
            { st2 with bestPull := fpv.2, bestDistance := vr.2, foundValid := true }
          else st2
        else
          binarySearchLoop checkPass validate r minSpeed currentMaxSpeed fuel st2

/-- The descending speed-tier loop of calculateTrajectory: five tiers of
geometric decay 0.85, each running one bisection; the first tier that
finds a valid candidate yields the aim result. -/
def speedLevelLoop (checkPass : Vec2 → ℤ × ℝ) (validate : Vec2 → Bool × ℝ)
    (slingshotPos : Vec2) (birdType : BirdType)
    (baseMaxInitialSpeed maxPull minAngle maxAngle : ℝ) :
    ℕ → ℕ → AIAimResult
  | 0, _ =>
    { dragStart := slingshotPos, dragEnd := ⟨0, 0⟩, pull := ⟨0, 0⟩,
      skillActivationTime := -1, isValid := false }
  | rem + 1, level =>
    let currentMaxSpeed := baseMaxInitialSpeed * (0.85 : ℝ) ^ level
    let minSpeed := currentMaxSpeed * 0.3
    let r := maxPull
    let st0 : BisectState :=
      { lowAngle := minAngle, highAngle := maxAngle, bestPull := ⟨0, 0⟩,
        bestDistance := floatMax, foundValid := false }
    let st := binarySearchLoop checkPass validate r minSpeed currentMaxSpeed 10 st0
    if st.foundValid then
      { dragStart := slingshotPos, dragEnd := slingshotPos - st.bestPull,
        pull := st.bestPull,
        skillActivationTime := if birdType = BirdType.Yellow then 0 else -1,
        isValid := true }
    else
      speedLevelLoop checkPass validate slingshotPos birdType
        baseMaxInitialSpeed maxPull minAngle maxAngle rem (level + 1)

/-- calculateTrajectory of the state-machine controller: bisection over
angle at maximal pull across five descending speed tiers. -/
def calculateTrajectoryBisect (checkPass : Vec2 → ℤ × ℝ) (validate : Vec2 → Bool × ℝ)
    (slingshotPos targetPos : Vec2) (birdType : BirdType) : AIAimResult :=
  let baseMaxInitialSpeed :=
    match birdType with
    | BirdType.Red => config.bird_speed.kRedInitialMax
    | BirdType.Yellow =>
      let b := config.bird_speed.kYellowInitialMax * 2
      if b > config.bird_speed.kYellowMaxSpeed then config.bird_speed.kYellowMaxSpeed
      else b
    | BirdType.Bomb => config.bird_speed.kBombInitialMax
  let dx := targetPos.x - slingshotPos.x
  let dy := targetPos.y - slingshotPos.y
  let targetDistance := Real.sqrt (dx * dx + dy * dy)
  if targetDistance < 10 then
    { dragStart := slingshotPos, dragEnd := ⟨0, 0⟩, pull := ⟨0, 0⟩,
      skillActivationTime := -1, isValid := false }
  else
    let maxPull :=
      if birdType = BirdType.Yellow then config.kMaxPullDistance * 2
      else config.kMaxPullDistance
    let targetAngle := atan2 dy dx
    let minAngle : ℝ := -1.57
    let maxAngle0 := if targetAngle < minAngle then minAngle + 0.1 else targetAngle
    let maxAngle := min maxAngle0 0.785
    speedLevelLoop checkPass validate slingshotPos birdType
      baseMaxInitialSpeed maxPull minAngle maxAngle 5 0

-- ========== Strict trajectory validator ==========

/-- Running state of the strict validator simulation.  The point list is
accumulated most-recent-first, so its head is the back of the C++ vector. -/
structure ValidateState where
  pos : Vec2
  vel : Vec2
  prevVel : Vec2
  pts : List Vec2
  closestDist : ℝ
  timeToTarget : ℝ

/-- The sharp-corner (fold) check of the strict validator on the last
two recorded points and the new position: a direction change beyond 60
degrees between consecutive segments is a fold; near the apex the 30
degree threshold is consulted, on a condition that can never hold there. -/
def foldBadCheck (pts : List Vec2) (vel2 prevVel2 pos2 : Vec2) : Bool :=
  match pts with
  | p1 :: p0 :: _ =>
    let v1 := p1 - p0
    let v2 := pos2 - p1
    let len1 := length v1
    let len2 := length v2
    if len1 > 0.1 ∧ len2 > 0.1 then
      let d0 := (v1.x / len1) * (v2.x / len2) + (v1.y / len1) * (v2.y / len2)
      let d := max (-1) (min 1 d0)
      let isNearVertex := |vel2.y| < 50 ∨ (prevVel2.y < 0 ∧ vel2.y > 0)
      if d < 0.5 then
        if ¬ isNearVertex then true
        else if d < 0.866 then true else false
      else false
    else false
  | _ => false

/-- The simulation loop of validateTrajectoryWithTime: per step, gravity,
drag, the speed-discontinuity check, the strict x-span check before the
position update, and the sharp-corner (fold) check before recording the
point.  Returns the final state and false exactly when the source returns
false from inside the loop. -/
def validateLoop (targetPos : Vec2) (minX maxX : ℝ) :
    ℕ → ℕ → ValidateState → ValidateState × Bool
  | 0, _, st => (st, true)
  | fuel + 1, step, st =>
    let currentTime := (step : ℝ) * 0.01
    let vel1 : Vec2 := ⟨st.vel.x, st.vel.y + config.kGravity * 0.01⟩
    let currentSpeed := length vel1
    let vel2 :=
      if currentSpeed > 0.001 then
        vel1 + (0.01 : ℝ) •
          ((config.kAirResistanceAccel * config.kPixelsPerMeter) •
            (⟨vel1.x / currentSpeed, vel1.y / currentSpeed⟩ : Vec2))
      else vel1
    let prevSpeed := length st.prevVel
    let spdChange := if prevSpeed > 0.001 then currentSpeed / prevSpeed else 1
    let earlyFold : Bool :=
      if spdChange < 0.85 ∧ prevSpeed > 0.001 then
        let prevDir := Vec2.divR st.prevVel prevSpeed
        let currDir := Vec2.divR vel2 currentSpeed
        if prevDir.x * currDir.x + prevDir.y * currDir.y < 0.98 then true else false
      else false
    if earlyFold then (st, false)
    else
      let nextPos := st.pos + (0.01 : ℝ) • vel2
      if nextPos.x < minX ∨ nextPos.x > maxX then (st, false)
      else
        let pos2 := nextPos
        let prevVel2 := vel2
        let foldBad : Bool := foldBadCheck st.pts vel2 prevVel2 pos2
        if foldBad then (st, false)
        else
          let pts2 := pos2 :: st.pts
          let dist := distance pos2 targetPos
          let st2 : ValidateState :=
            if dist < st.closestDist then
              { pos := pos2, vel := vel2, prevVel := prevVel2, pts := pts2,
                closestDist := dist, timeToTarget := currentTime }
            else
              { pos := pos2, vel := vel2, prevVel := prevVel2, pts := pts2,
                closestDist := st.closestDist, timeToTarget := st.timeToTarget }
          if pos2.y > config.kWindowHeight + 200 then (st2, true)
          else if step > 100 ∧ pos2.x > targetPos.x ∧ dist > st2.closestDist * 2 then
            (st2, true)
          else validateLoop targetPos minX maxX fuel (step + 1) st2

/-- Result of the strict validator: the validity flag and the two output
reference parameters. -/
structure ValidateResult where
  ok : Bool
  closestDist : ℝ
  timeToTarget : ℝ

/-- The initial simulation state of the strict validator. -/
def validateInit (slingshotPos initialVelocity : Vec2) : ValidateState :=
  { pos := slingshotPos, vel := initialVelocity, prevVel := initialVelocity,
    pts := [slingshotPos], closestDist := floatMax, timeToTarget := floatMax }

/-- validateTrajectoryWithTime: strict trajectory validation with the
initial-direction guards, the 1500-step simulation, and the final
closest-approach acceptance checks. -/
def validateTrajectoryWithTime (slingshotPos targetPos initialVelocity : Vec2) :
    ValidateResult :=
  let dx := targetPos.x - slingshotPos.x
  let dy := targetPos.y - slingshotPos.y
  let targetDist := Real.sqrt (dx * dx + dy * dy)
  let minX := min slingshotPos.x targetPos.x
  let maxX := max slingshotPos.x targetPos.x
  if initialVelocity.x ≤ 0 then
    { ok := false, closestDist := floatMax, timeToTarget := floatMax }
  else if initialVelocity.y > 0 ∧ length initialVelocity < 200 then
    { ok := false, closestDist := floatMax, timeToTarget := floatMax }
  else
    let r := validateLoop targetPos minX maxX 1500 0 (validateInit slingshotPos initialVelocity)
    if r.2 = false then
      { ok := false, closestDist := r.1.closestDist, timeToTarget := r.1.timeToTarget }
    else
      let maxValidDist := min (targetDist * 1) 10
      let isValid0 : Bool := if r.1.closestDist < maxValidDist then true else false
      let isValid : Bool := if r.1.closestDist > 60 then false else isValid0
      { ok := isValid, closestDist := r.1.closestDist, timeToTarget := r.1.timeToTarget }

-- ========== Trajectory validity predicates ==========

/-- The sharp-corner condition of the validator on one point triple: when
both segments are longer than 0.1, the clamped normalised dot product of
the segment directions is at least 0.5 (a direction change of at most 60
degrees; the stricter 30-degree near-apex branch of the source is
unreachable, since its guard already implies rejection). -/
def tripleOK (p0 p1 p2 : Vec2) : Prop :=
  length (p1 - p0) > 0.1 → length (p2 - p1) > 0.1 →
    max (-1) (min 1
      (((p1 - p0).x / length (p1 - p0)) * ((p2 - p1).x / length (p2 - p1)) +
       ((p1 - p0).y / length (p1 - p0)) * ((p2 - p1).y / length (p2 - p1)))) ≥ 0.5

/-- The in-span condition the validator enforces on every recorded
point: its x coordinate lies between minX and maxX. -/
def inSpan (pts : List Vec2) (minX maxX : ℝ) : Prop :=
  ∀ p ∈ pts, minX ≤ p.x ∧ p.x ≤ maxX

/-- No fold along a most-recent-first point list: every consecutive point
triple, taken in flight order, satisfies tripleOK. -/
def noFoldRev : List Vec2 → Prop
  | p2 :: p1 :: p0 :: rest => tripleOK p0 p1 p2 ∧ noFoldRev (p1 :: p0 :: rest)
  | _ => True

/-- Modelled from the spec: validity condition (a) for an accepted
trajectory, no consecutive-segment direction change greater than 60
degrees, stated on a flight-ordered point list (the near-apex 30-degree
refinement only strengthens the condition, so its absence here is sound
for refutation).  The dot product is compared in product form to avoid a
division. -/
def specNoFold : List Vec2 → Prop
  | p0 :: p1 :: p2 :: rest =>
    ((p1 - p0).x * (p2 - p1).x + (p1 - p0).y * (p2 - p1).y ≥
      0.5 * (length (p1 - p0) * length (p2 - p1))) ∧ specNoFold (p1 :: p2 :: rest)
  | _ => True

/-- Modelled from the spec: validity condition (b) for an accepted
trajectory, every simulated point stays within the horizontal span
between the launch x and the target x, up to the tolerance tol. -/
def specInSpan (pts : List Vec2) (x1 x2 tol : ℝ) : Prop :=
  ∀ p ∈ pts, min x1 x2 - tol ≤ p.x ∧ p.x ≤ max x1 x2 + tol

/-- Modelled from the spec: an accepted aim's simulated trajectory must
satisfy both validity conditions. -/
def specTrajectoryValid (pts : List Vec2) (x1 x2 tol : ℝ) : Prop :=
  specNoFold pts ∧ specInSpan pts x1 x2 tol

/-- A point triple whose direction change exceeds 60 degrees (dot product
below cos 60 times the segment lengths): it breaks validity
condition (a). -/
def specFoldBreak (p0 p1 p2 : Vec2) : Prop :=
  (p1 - p0).x * (p2 - p1).x + (p1 - p0).y * (p2 - p1).y <
    0.5 * (length (p1 - p0) * length (p2 - p1))

/-- A point beyond the horizontal span plus tolerance: it breaks
validity condition (b). -/
def specSpanBreak (p : Vec2) (x1 x2 tol : ℝ) : Prop :=
  max x1 x2 + tol < p.x

-- ========== Concrete scenes for the solver claims ==========

/-- A trajectory oracle result that misses every target by a kilometre. -/
def trajFar : TrajectoryResult :=
  { points := [], hitTarget := false, hitTime := 0, hitPoint := ⟨0, 0⟩,
    minDistanceToTarget := 1000000, finalVelocity := 0 }

/-- A pig target of size 30x30 at (800, 500). -/
def c2Target : TargetInfo :=
  { type := TargetType.Pig, position := ⟨800, 500⟩, size := ⟨30, 30⟩,
    health := 10, maxHealth := 10, threatValue := 10, attackValue := 2,
    obstacleLayerCount := 0, materialStrength := 240, pigType := PigType.Small,
    hasEntity := true }

/-- A trajectory oracle result that reports a hit but whose simulated
point sequence folds back on itself and leaves the launch-to-target
horizontal span. -/
def trajFold : TrajectoryResult :=
  { points := [⟨200, 500⟩, ⟨900, 400⟩, ⟨200, 500⟩], hitTarget := true,
    hitTime := 1, hitPoint := ⟨800, 500⟩, minDistanceToTarget := 0,
    finalVelocity := 100 }

/-- A state-machine controller state mid-aim, used to examine setEnabled. -/
def c5StateA : CtrlAState :=
  { enabled := true, aiming := true, shouldLaunch := true, shouldActivateSkill := true,
    waitTimer := 0, aimTimer := 0, aimProgress := 0, state := AIStateA.Aiming,
    currentTarget := none,
    currentAim := { dragStart := ⟨0, 0⟩, dragEnd := ⟨0, 0⟩, pull := ⟨0, 0⟩,
                    skillActivationTime := 0, isValid := true },
    aimTrajectory := [⟨1, 2⟩] }

/-- A grid-search controller state with a pending launch, used to examine
its inline setEnabled. -/
def c5StateB : CtrlBState :=
  { enabled := true, shouldLaunch := true, shouldActivateSkill := true,
    currentAim := AimingInfo.mk0, allTargets := [], pigTargets := [],
    blockTargets := [], slingshotPos := ⟨200, 500⟩, trajectoryPreview := [⟨3, 4⟩],
    timeSinceLastAnalysis := 0, launchCooldown := 0, waitingForBirdsLogged := false,
    birdDisappearWaitTimer := 0, lastBirdWasActive := false,
    trajectoryPreviewTimer := 0, trajectoryPreviewReady := true }

/-- An airborne previously launched bird: launched, not destroyed, body
present and active. -/
def c8Birds : List BirdInfo :=
  [{ launched := true, destroyed := false, hasBody := true, bodyActive := true,
     type := BirdType.Red, position := ⟨500, 300⟩ }]

/-- A controller state inside the post-launch cooldown with a stale
pending-launch flag. -/
def c8State : CtrlBState :=
  { enabled := true, shouldLaunch := true, shouldActivateSkill := false,
    currentAim := AimingInfo.mk0, allTargets := [], pigTargets := [],
    blockTargets := [], slingshotPos := ⟨200, 500⟩, trajectoryPreview := [],
    timeSinceLastAnalysis := 0, launchCooldown := 0.3,
    waitingForBirdsLogged := false, birdDisappearWaitTimer := 0,
    lastBirdWasActive := false, trajectoryPreviewTimer := 0,
    trajectoryPreviewReady := false }

/-- The same controller state with the cooldown expired. -/
def c8StateW : CtrlBState :=
  { c8State with launchCooldown := 0 }

/-- A live exposed annotated target at distance 500, the witness scene
for the selection strategies. -/
def c7Target : AITarget :=
  { position := ⟨700, 500⟩, priority := 2, distance := 500,
    isExposed := true, protectionLevel := 0, pig := some ⟨false⟩ }

/-- A reachable sequencer state in which the selected target pig was
destroyed after selection: the aim is still valid, the launch flag is
pending, and an unlaunched bird sits on the slingshot. -/
def c4State : GameAIState :=
  { aiModeEnabled := true,
    birds := [{ launched := false, destroyed := false, hasBody := true,
                bodyActive := false, type := BirdType.Red, position := ⟨200, 500⟩ }],
    pigs := [{ destroyed := true, position := ⟨800, 500⟩ }],
    selectedTargetPig := some 0,
    shouldLaunch := true, shouldActivateSkill := false,
    aimIsValid := true, aimDragEnd := ⟨150, 550⟩, slingshotPos := ⟨200, 500⟩ }

-- ========== Per-frame update of the grid-search controller ==========
-- Its three callees that read entity internals enter as parameters at
-- their source call boundaries: the scene analysis result, the per-type
-- target selection, and the optimal-aim computation.

/-- The airborne test of the update loop: some bird is launched, not
destroyed, and its physics body exists and is active. -/
def hasActiveLaunchedBird (birds : List BirdInfo) : Bool :=
  birds.any (fun b => b.launched && !b.destroyed && b.hasBody && b.bodyActive)

/-- The result of one scene analysis (analyzeLevelLayout's effect on the
controller's three target lists). -/
structure AnalyzedScene where
  allTargets : List TargetInfo
  pigTargets : List TargetInfo
  blockTargets : List TargetInfo

/-- updateTrajectoryPreview: rebuild the one-second preview from the
current aim's trajectory points (colour fading dropped, it carries no
state). -/
def updateTrajectoryPreviewB (s : CtrlBState) : CtrlBState :=
  if s.currentAim.isValid = true ∧ s.currentAim.trajectoryPoints.isEmpty = false then
    let maxPreviewSteps : ℕ := 59
    let pointsToShow := min s.currentAim.trajectoryPoints.length maxPreviewSteps
    { s with trajectoryPreview := s.currentAim.trajectoryPoints.take pointsToShow }
  else { s with trajectoryPreview := [] }

/-- The first unlaunched bird's type, defaulting to Red. -/
def nextUnlaunchedType (birds : List BirdInfo) : BirdType :=
  match birds.find? (fun b => !b.launched) with
  | some b => b.type
  | none => BirdType.Red

/-- update of the grid-search controller, one tick.  The second result
component records whether this tick reached the target-selection /
aim-solving branch. -/
def updateB (selectFn : BirdType → List TargetInfo → List TargetInfo → TargetInfo)
    (aimFn : BirdType → TargetInfo → Vec2 → AimingInfo)
    (scene : AnalyzedScene) (s0 : CtrlBState) (dt : ℝ)
    (birds : List BirdInfo) (slingshotPos : Vec2) : CtrlBState × Bool :=
  if s0.enabled = false then (s0, false)
  else
    let s : CtrlBState := { s0 with slingshotPos := slingshotPos }
    if s.launchCooldown > 0 then
      ({ s with launchCooldown := s.launchCooldown - dt }, false)
    else
      let s : CtrlBState :=
        if s.trajectoryPreviewTimer > 0 ∧ s.trajectoryPreviewReady = false then
          let t2 := s.trajectoryPreviewTimer + dt
          if t2 ≥ 1 then
            let s2 := { s with trajectoryPreviewReady := true, trajectoryPreviewTimer := 0 }
            if s2.currentAim.isValid then
              { s2 with shouldLaunch := true,
                        shouldActivateSkill :=
                          if nextUnlaunchedType birds = BirdType.Yellow then true
                          else s2.shouldActivateSkill,
                        launchCooldown := 0.5 }
            else s2
          else { s with trajectoryPreviewTimer := t2 }
        else s
      let ta := s.timeSinceLastAnalysis + dt
      let s : CtrlBState :=
        if ta ≥ 0.1 then
          { s with allTargets := scene.allTargets, pigTargets := scene.pigTargets,
                   blockTargets := scene.blockTargets, timeSinceLastAnalysis := 0 }
        else { s with timeSinceLastAnalysis := ta }
      if hasActiveLaunchedBird birds then
        ({ s with lastBirdWasActive := true, birdDisappearWaitTimer := 0,
                  shouldLaunch := false, trajectoryPreview := [],
                  waitingForBirdsLogged := true }, false)
      else
        let s : CtrlBState :=
          if s.lastBirdWasActive then
            { s with lastBirdWasActive := false, birdDisappearWaitTimer := 0 }
          else s
        if s.birdDisappearWaitTimer < 1 then
          ({ s with birdDisappearWaitTimer := s.birdDisappearWaitTimer + dt,
                    shouldLaunch := false, trajectoryPreview := [] }, false)
        else
          let s := { s with waitingForBirdsLogged := false }
          match birds.find? (fun b => !b.launched) with
          | none => (s, false)
          | some nextBird =>
            if s.trajectoryPreviewTimer > 0 ∧ s.trajectoryPreviewReady = false then
              (updateTrajectoryPreviewB s, false)
            else if s.trajectoryPreviewReady = true ∧ s.shouldLaunch = true then
              ({ s with trajectoryPreviewTimer := 0, trajectoryPreviewReady := false }, false)
            else if s.shouldLaunch = false ∧ s.pigTargets.isEmpty = false then
              let selectedTarget := selectFn nextBird.type s.pigTargets s.blockTargets
              if selectedTarget.hasEntity then
                let aim := aimFn nextBird.type selectedTarget s.slingshotPos
                let s := { s with currentAim := aim }
                if aim.isValid then
                  let errorThreshold : ℝ :=
                    if nextBird.type = BirdType.Yellow then 5
                    else if nextBird.type = BirdType.Bomb then 8
                    else 3
                  if aim.trajectoryError < errorThreshold then
                    let s :=
                      if s.trajectoryPreviewTimer = 0 then
                        { s with trajectoryPreviewTimer := 0.001,
                                 trajectoryPreviewReady := false }
                      else s
                    let s := updateTrajectoryPreviewB s
                    ({ s with shouldLaunch := false }, true)
                  else (s, true)
                else (s, true)
              else (s, true)
            else (s, false)

-- ========== Helper lemmas ==========

theorem length_mk (a b : ℝ) : length ⟨a, b⟩ = Real.sqrt (a * a + b * b) := rfl

theorem length_nonneg (v : Vec2) : 0 ≤ length v := Real.sqrt_nonneg _

theorem length_eq (a b c : ℝ) (h0 : 0 ≤ c) (h : c * c = a * a + b * b) :
    length ⟨a, b⟩ = c := by
  rw [length_mk, ← h, Real.sqrt_mul_self h0]

theorem smul_mk (c a b : ℝ) : c • (⟨a, b⟩ : Vec2) = ⟨c * a, c * b⟩ := rfl

theorem add_mk (a b c d : ℝ) : (⟨a, b⟩ : Vec2) + ⟨c, d⟩ = ⟨a + c, b + d⟩ := rfl

theorem sub_mk (a b c d : ℝ) : (⟨a, b⟩ : Vec2) - ⟨c, d⟩ = ⟨a - c, b - d⟩ := rfl

theorem neg_mk (a b : ℝ) : -(⟨a, b⟩ : Vec2) = ⟨-a, -b⟩ := rfl

theorem length_smul (c : ℝ) (v : Vec2) : length (c • v) = |c| * length v := by
  show Real.sqrt (c * v.x * (c * v.x) + c * v.y * (c * v.y)) = _
  rw [show c * v.x * (c * v.x) + c * v.y * (c * v.y)
        = (c * c) * (v.x * v.x + v.y * v.y) by ring,
     Real.sqrt_mul (mul_self_nonneg c), Real.sqrt_mul_self_eq_abs]
  rfl

theorem normalize_of_ge (v : Vec2) (h : ¬ length v < 0.0001) :
    normalize v = ⟨v.x / length v, v.y / length v⟩ := by
  rw [normalize, if_neg h]

theorem vecExt {a b : Vec2} (hx : a.x = b.x) (hy : a.y = b.y) : a = b := by
  cases a; cases b; simp_all

theorem length_mul_self (v : Vec2) : length v * length v = v.x * v.x + v.y * v.y :=
  Real.mul_self_sqrt (add_nonneg (mul_self_nonneg _) (mul_self_nonneg _))

theorem distance_eq (p q : Vec2) (c : ℝ) (h0 : 0 ≤ c)
    (h : c * c = (p.x - q.x) * (p.x - q.x) + (p.y - q.y) * (p.y - q.y)) :
    distance p q = c := by
  rw [distance, ← h, Real.sqrt_mul_self h0]

theorem foldl_count {α : Type} (p : α → Bool) (l : List α) :
    ∀ acc : ℤ, l.foldl (fun a x => if p x = true then a + 1 else a) acc
      = acc + l.countP p := by
  induction l with
  | nil => intro acc; simp
  | cons b t ih =>
    intro acc
    by_cases hb : p b = true
    · simp only [List.foldl_cons, if_pos hb, ih, List.countP_cons, hb]
      push_cast
      ring
    · simp only [List.foldl_cons, if_neg hb, ih, List.countP_cons, hb]
      simp [hb]

theorem smul_x (c : ℝ) (v : Vec2) : (c • v).x = c * v.x := rfl

theorem smul_y (c : ℝ) (v : Vec2) : (c • v).y = c * v.y := rfl

theorem length_pos_of_ge (v : Vec2) (h : ¬ length v < 0.0001) : 0 < length v := by
  have := not_lt.mp h
  linarith

-- ========== Claim theorems: stepper and helpers ==========

/-- Claim C1 (code evaluation at the failing input): one ballistic-stepper
step at position (0,0), velocity (400,-294), dt 1, maxSpeed 800 returns
velocity (407.5, 0): after gravity the velocity is (400, 0) with speed
400, and the air-resistance term then RAISES the speed to 407.5, because
the source negates the already negative drag constant and so accelerates
the body along its direction of motion instead of against it. -/
theorem claim1_applyPhysicsStep_drag_raises_speed :
    applyPhysicsStep ⟨0, 0⟩ ⟨400, -294⟩ 1 800 = (⟨407.5, 0⟩, ⟨407.5, 0⟩) ∧
      length (⟨407.5, 0⟩ : Vec2) > length (⟨400, 0⟩ : Vec2) := by
  have h400 : length (⟨400, 0⟩ : Vec2) = 400 := length_eq _ _ _ (by norm_num) (by norm_num)
  have h4075 : length (⟨407.5, 0⟩ : Vec2) = 407.5 :=
    length_eq _ _ _ (by norm_num) (by norm_num)
  have hn400 : normalize ⟨400, 0⟩ = ⟨1, 0⟩ := by
    rw [normalize_of_ge _ (by rw [h400]; norm_num), h400]
    norm_num [Vec2.mk.injEq]
  constructor
  · have hg : config.kGravity = 294 := by
      norm_num [config.kGravity, config.kPixelsPerMeter]
    have hc : config.kAirResistanceAccel * config.kPixelsPerMeter = (-7.5 : ℝ) := by
      norm_num [config.kAirResistanceAccel, config.kPixelsPerMeter]
    have h4075b : length ⟨815 / 2, 0⟩ = 815 / 2 :=
      length_eq _ _ _ (by norm_num) (by norm_num)
    simp only [applyPhysicsStep, hg, hc]
    norm_num [neg_mk, smul_mk, add_mk, h400, hn400, h4075b, Vec2.mk.injEq, Prod.mk.injEq]
  · rw [h400, h4075]; norm_num

/-- Claim C10: the vector helpers are total.  normalize returns the zero
vector whenever the length is below 1e-4 and otherwise divides by a
strictly positive length, and every division performed by normalize and
applyPhysicsStep has a nonzero denominator: the checked variants, which
fail on any zero-denominator division, always succeed and agree with the
unchecked functions. -/
theorem claim10_stepper_helpers_total :
    (∀ v : Vec2, (length v < 0.0001 → normalize v = ⟨0, 0⟩) ∧
      normalizeChecked v = some (normalize v)) ∧
    (∀ pos vel : Vec2, ∀ dt maxSpeed : ℝ,
      applyPhysicsStepChecked pos vel dt maxSpeed
        = some (applyPhysicsStep pos vel dt maxSpeed)) := by
  have hnC : ∀ v : Vec2, normalizeChecked v = some (normalize v) := by
    intro v
    by_cases h : length v < 0.0001
    · rw [normalizeChecked, normalize, if_pos h, if_pos h]
    · have hpos : 0 < length v := length_pos_of_ge v h
      rw [normalizeChecked, normalize, if_neg h, if_neg h]
      simp only [divCheck, if_neg (ne_of_gt hpos)]
      rfl
  refine ⟨fun v => ⟨fun h => by rw [normalize, if_pos h], hnC v⟩, ?_⟩
  intro pos vel dt maxSpeed
  simp only [applyPhysicsStepChecked, applyPhysicsStep, hnC, Option.pure_def,
    Option.bind_eq_bind, Option.some_bind]
  by_cases h1 : length ⟨vel.x, vel.y + config.kGravity * dt⟩ > 0.001
  · simp only [if_pos h1, hnC, Option.some_bind]
    by_cases h2 :
        length (⟨vel.x, vel.y + config.kGravity * dt⟩ +
          dt • ((config.kAirResistanceAccel * config.kPixelsPerMeter) •
            (-normalize ⟨vel.x, vel.y + config.kGravity * dt⟩))) > maxSpeed
    · simp only [if_pos h2, hnC, Option.some_bind]
    · simp only [if_neg h2, Option.some_bind]
  · simp only [if_neg h1]
    by_cases h2 : length ⟨vel.x, vel.y + config.kGravity * dt⟩ > maxSpeed
    · simp only [if_pos h2, hnC, Option.some_bind]
    · simp only [if_neg h2, Option.some_bind]

/-- Claim C9: when the accelerating-type skill fires on a launched bird
with speed above zero, the new velocity preserves the direction of the
current velocity and has magnitude min of twice the speed and the
type's absolute cap kYellowMaxSpeed = 1500; the solver's simulated
doubling event (applied immediately upon launch) performs the same
velocity change whenever its own 0.001 speed guard passes. -/
theorem claim9_yellow_skill_doubles_and_clamps (v : Vec2) (h : 0 < length v) :
    config.bird_speed.kYellowMaxSpeed = 1500 ∧
    activateSkillYellowVel v config.bird_speed.kYellowMaxSpeed
      = (min (2 * length v) 1500 / length v) • v ∧
    length (activateSkillYellowVel v config.bird_speed.kYellowMaxSpeed)
      = min (2 * length v) 1500 ∧
    (0.001 < length v →
      yellowTrajectorySkillVel v
        = activateSkillYellowVel v config.bird_speed.kYellowMaxSpeed) := by
  have hL2 : length v * length v = v.x * v.x + v.y * v.y := length_mul_self v
  have hmax : config.bird_speed.kYellowMaxSpeed = 1500 := by
    norm_num [config.bird_speed.kYellowMaxSpeed]
  have key : activateSkillYellowVel v config.bird_speed.kYellowMaxSpeed
      = (min (2 * length v) 1500 / length v) • v := by
    simp only [activateSkillYellowVel, hmax]
    by_cases hc : 0.01 ≤ v.x * v.x + v.y * v.y
    · rw [max_eq_right hc]
      have hsp : Real.sqrt (v.x * v.x + v.y * v.y) = length v := rfl
      rw [hsp]
      have hge : (0.1 : ℝ) ≤ length v := by nlinarith [length_nonneg v]
      rw [if_pos (by linarith : length v > 0.01)]
      rw [mul_comm (length v) 2]
    · push_neg at hc
      rw [max_eq_left (le_of_lt hc)]
      have hs01 : Real.sqrt 0.01 = 0.1 := by
        rw [show (0.01 : ℝ) = 0.1 * 0.1 by norm_num, Real.sqrt_mul_self (by norm_num)]
      rw [hs01, if_pos (by norm_num : (0.1 : ℝ) > 0.01)]
      have hlt : length v < 0.1 := by nlinarith [length_nonneg v]
      have hmin1 : min (0.1 * 2 : ℝ) 1500 = 0.2 := by norm_num
      have hmin2 : min (2 * length v) 1500 = 2 * length v :=
        min_eq_left (by linarith)
      rw [hmin1, hmin2]
      rw [show (0.2 : ℝ) / 0.1 = 2 by norm_num]
      rw [show (2 * length v) / length v = 2 by field_simp]
  have hlen : length (activateSkillYellowVel v config.bird_speed.kYellowMaxSpeed)
      = min (2 * length v) 1500 := by
    rw [key, length_smul]
    have hfpos : 0 < min (2 * length v) 1500 / length v :=
      div_pos (lt_min (by linarith) (by norm_num)) h
    rw [abs_of_pos hfpos, div_mul_cancel₀ _ (ne_of_gt h)]
  refine ⟨hmax, key, hlen, fun h1 => ?_⟩
  rw [key]
  simp only [yellowTrajectorySkillVel, hmax]
  rw [if_pos (h1 : length v > 0.001)]
  rw [normalize_of_ge _ (by intro hcon; linarith)]
  rw [mul_comm (length v) 2]
  refine vecExt ?_ ?_ <;> simp only [smul_mk, smul_x, smul_y] <;> ring

/-- Witness for claim C9 at the concrete velocity (300, -400) of speed
500: the doubled speed is min 1000 1500. -/
theorem claim9_witness :
    0 < length (⟨300, -400⟩ : Vec2) ∧
    length (activateSkillYellowVel ⟨300, -400⟩ config.bird_speed.kYellowMaxSpeed)
      = min (2 * length (⟨300, -400⟩ : Vec2)) 1500 := by
  have h5 : length (⟨300, -400⟩ : Vec2) = 500 :=
    length_eq _ _ _ (by norm_num) (by norm_num)
  have hpos : 0 < length (⟨300, -400⟩ : Vec2) := by rw [h5]; norm_num
  exact ⟨hpos, (claim9_yellow_skill_doubles_and_clamps ⟨300, -400⟩ hpos).2.2.1⟩

-- ========== Claim theorems: setEnabled (C5) ==========

/-- Claim C5 counterexample: switching the grid-search controller off via
its setEnabled leaves the pending launch and skill flags set and the
trajectory preview populated, and even the state-machine controller's
setEnabled leaves the stored aim trajectory and the aim validity flag
untouched. -/
theorem claim5_counterexample :
    (setEnabledB c5StateB false).shouldLaunch = true ∧
    (setEnabledB c5StateB false).shouldActivateSkill = true ∧
    (setEnabledB c5StateB false).trajectoryPreview = [⟨3, 4⟩] ∧
    (setEnabledA c5StateA false).aimTrajectory = [⟨1, 2⟩] ∧
    (setEnabledA c5StateA false).currentAim.isValid = true := by
  refine ⟨rfl, rfl, rfl, ?_, ?_⟩ <;>
    simp [setEnabledA, c5StateA]

/-- Claim C5 as amended: the state-machine controller's setEnabled(false),
called while enabled, does clear the aiming, launch and skill flags and
the current target, but leaves the stored aim trajectory and the current
aim result untouched; the grid-search controller's inline setEnabled only
assigns the enabled flag and clears nothing at all. -/
theorem claim5_amended_setEnabled (s : CtrlAState) (t : CtrlBState)
    (h : s.enabled = true) :
    (setEnabledA s false).shouldLaunch = false ∧
    (setEnabledA s false).shouldActivateSkill = false ∧
    (setEnabledA s false).aiming = false ∧
    (setEnabledA s false).currentTarget = none ∧
    (setEnabledA s false).aimTrajectory = s.aimTrajectory ∧
    (setEnabledA s false).currentAim = s.currentAim ∧
    (setEnabledB t false).enabled = false ∧
    (setEnabledB t false).shouldLaunch = t.shouldLaunch ∧
    (setEnabledB t false).shouldActivateSkill = t.shouldActivateSkill ∧
    (setEnabledB t false).trajectoryPreview = t.trajectoryPreview ∧
    (setEnabledB t false).currentAim = t.currentAim := by
  simp [setEnabledA, setEnabledB, h]

/-- Witness for the amended claim C5 at the concrete mid-aim state. -/
theorem claim5_amended_witness :
    c5StateA.enabled = true ∧ (setEnabledA c5StateA false).shouldLaunch = false := by
  exact ⟨rfl, (claim5_amended_setEnabled c5StateA c5StateB rfl).1⟩

-- ========== Grid-search solver lemmas ==========

theorem candEval_const_err (T : TrajectoryResult) (birdType : BirdType)
    (target : TargetInfo) (angle power : ℝ) :
    (candEval (fun _ _ => T) birdType target angle power).2.2
      = constErrPercent T target := rfl

theorem candEval_const_traj (T : TrajectoryResult) (birdType : BirdType)
    (target : TargetInfo) (angle power : ℝ) :
    (candEval (fun _ _ => T) birdType target angle power).2.1 = T := rfl

theorem evalCandidate_valid_mono (calcTraj : Vec2 → ℝ → TrajectoryResult)
    (birdType : BirdType) (target : TargetInfo) (slingshotPos : Vec2)
    (useSkill : Bool) (s : GridState) (angle power : ℝ)
    (hs : s.1.isValid = true) :
    (evalCandidate calcTraj birdType target slingshotPos useSkill s angle power).1.isValid
      = true := by
  simp only [evalCandidate]
  by_cases h : (candEval calcTraj birdType target angle power).2.2 < s.2
  · rw [if_pos h]
  · rw [if_neg h]; exact hs

theorem evalCandidateFine_valid_mono (calcTraj : Vec2 → ℝ → TrajectoryResult)
    (birdType : BirdType) (target : TargetInfo) (slingshotPos : Vec2)
    (useSkill : Bool) (s : GridState) (angle power : ℝ)
    (hs : s.1.isValid = true) :
    (evalCandidateFine calcTraj birdType target slingshotPos useSkill s angle power).1.isValid
      = true := by
  simp only [evalCandidateFine]
  by_cases h : (candEval calcTraj birdType target angle power).2.2 < s.2
  · rw [if_pos h]
  · rw [if_neg h]; exact hs

theorem powerLoop_succ (step : GridState → ℝ → GridState)
    (fuel : ℕ) (power : ℝ) (s : GridState) :
    powerLoop step (fuel + 1) power s
      = if power ≤ 100 then powerLoop step fuel (power + 5) (step s power) else s := rfl

theorem angleLoop_succ (stepMain stepFine : GridState → ℝ → ℝ → GridState)
    (angleStep : ℝ) (fuel : ℕ) (angle : ℝ) (s : GridState) :
    angleLoop stepMain stepFine angleStep (fuel + 1) angle s
      = if angle ≤ 85 then
          (if (powerLoop (fun t p => stepMain t angle p) 17 20
                (if s.2 < 3 ∧ angle > 5 then
                  fineLoop stepFine angle (min 85 (angle + 4)) 12 (max 5 (angle - 4)) s
                 else s)).2 < 1 then
            powerLoop (fun t p => stepMain t angle p) 17 20
                (if s.2 < 3 ∧ angle > 5 then
                  fineLoop stepFine angle (min 85 (angle + 4)) 12 (max 5 (angle - 4)) s
                 else s)
          else
            angleLoop stepMain stepFine angleStep fuel (angle + angleStep)
              (powerLoop (fun t p => stepMain t angle p) 17 20
                (if s.2 < 3 ∧ angle > 5 then
                  fineLoop stepFine angle (min 85 (angle + 4)) 12 (max 5 (angle - 4)) s
                 else s)))
        else s := rfl

theorem powerLoop_pres (P : GridState → Prop) (step : GridState → ℝ → GridState)
    (hstep : ∀ s p, P s → P (step s p)) :
    ∀ (fuel : ℕ) (power : ℝ) (s : GridState), P s → P (powerLoop step fuel power s) := by
  intro fuel
  induction fuel with
  | zero => intro power s hs; exact hs
  | succ n ih =>
    intro power s hs
    simp only [powerLoop]
    by_cases h : power ≤ 100
    · rw [if_pos h]; exact ih _ _ (hstep s power hs)
    · rw [if_neg h]; exact hs

theorem fineLoop_pres (P : GridState → Prop)
    (stepC : GridState → ℝ → ℝ → GridState) (angle fineEnd : ℝ)
    (hstep : ∀ s a p, P s → P (stepC s a p)) :
    ∀ (fuel : ℕ) (fa : ℝ) (s : GridState), P s →
      P (fineLoop stepC angle fineEnd fuel fa s) := by
  intro fuel
  induction fuel with
  | zero => intro fa s hs; exact hs
  | succ n ih =>
    intro fa s hs
    simp only [fineLoop]
    by_cases h : fa ≤ fineEnd
    · rw [if_pos h]
      refine ih _ _ ?_
      by_cases he : fa = angle
      · rw [if_pos he]; exact hs
      · rw [if_neg he]
        exact powerLoop_pres P _ (fun t p ht => hstep t fa p ht) 17 20 s hs
    · rw [if_neg h]; exact hs

theorem angleLoop_pres (P : GridState → Prop)
    (stepMain stepFine : GridState → ℝ → ℝ → GridState) (angleStep : ℝ)
    (hm : ∀ s a p, P s → P (stepMain s a p))
    (hf : ∀ s a p, P s → P (stepFine s a p)) :
    ∀ (fuel : ℕ) (a : ℝ) (s : GridState), P s →
      P (angleLoop stepMain stepFine angleStep fuel a s) := by
  intro fuel
  induction fuel with
  | zero => intro a s hs; exact hs
  | succ n ih =>
    intro a s hs
    simp only [angleLoop]
    by_cases h : a ≤ 85
    · rw [if_pos h]
      have hs1 : P (if s.2 < 3 ∧ a > 5 then
          fineLoop stepFine a (min 85 (a + 4)) 12 (max 5 (a - 4)) s else s) := by
        by_cases hcond : s.2 < 3 ∧ a > 5
        · rw [if_pos hcond]
          exact fineLoop_pres P stepFine a _ hf 12 _ s hs
        · rw [if_neg hcond]; exact hs
      have hs2 : P (powerLoop (fun t p => stepMain t a p) 17 20
          (if s.2 < 3 ∧ a > 5 then
            fineLoop stepFine a (min 85 (a + 4)) 12 (max 5 (a - 4)) s else s)) :=
        powerLoop_pres P _ (fun t p ht => hm t a p ht) 17 20 _ hs1
      by_cases hb : (powerLoop (fun t p => stepMain t a p) 17 20
          (if s.2 < 3 ∧ a > 5 then
            fineLoop stepFine a (min 85 (a + 4)) 12 (max 5 (a - 4)) s else s)).2 < 1
      · rw [if_pos hb]; exact hs2
      · rw [if_neg hb]; exact ih _ _ hs2
    · rw [if_neg h]; exact hs

theorem powerLoop_fixed (step : GridState → ℝ → GridState) (S : GridState)
    (hstep : ∀ p, step S p = S) :
    ∀ (fuel : ℕ) (power : ℝ), powerLoop step fuel power S = S := by
  intro fuel
  induction fuel with
  | zero => intro power; rfl
  | succ n ih =>
    intro power
    simp only [powerLoop]
    by_cases h : power ≤ 100
    · rw [if_pos h, hstep, ih]
    · rw [if_neg h]

theorem fineLoop_fixed (stepC : GridState → ℝ → ℝ → GridState)
    (angle fineEnd : ℝ) (S : GridState) (hstep : ∀ a p, stepC S a p = S) :
    ∀ (fuel : ℕ) (fa : ℝ), fineLoop stepC angle fineEnd fuel fa S = S := by
  intro fuel
  induction fuel with
  | zero => intro fa; rfl
  | succ n ih =>
    intro fa
    simp only [fineLoop]
    by_cases h : fa ≤ fineEnd
    · rw [if_pos h]
      have : (if fa = angle then S
          else powerLoop (fun t p => stepC t fa p) 17 20 S) = S := by
        by_cases he : fa = angle
        · rw [if_pos he]
        · rw [if_neg he]
          exact powerLoop_fixed _ S (fun p => hstep fa p) 17 20
      rw [this, ih]
    · rw [if_neg h]

theorem angleLoop_fixed (stepMain stepFine : GridState → ℝ → ℝ → GridState)
    (angleStep : ℝ) (S : GridState)
    (hm : ∀ a p, stepMain S a p = S) (hf : ∀ a p, stepFine S a p = S) :
    ∀ (fuel : ℕ) (a : ℝ), angleLoop stepMain stepFine angleStep fuel a S = S := by
  intro fuel
  induction fuel with
  | zero => intro a; rfl
  | succ n ih =>
    intro a
    simp only [angleLoop]
    by_cases h : a ≤ 85
    · rw [if_pos h]
      have h1 : (if S.2 < 3 ∧ a > 5 then
          fineLoop stepFine a (min 85 (a + 4)) 12 (max 5 (a - 4)) S else S) = S := by
        by_cases hcond : S.2 < 3 ∧ a > 5
        · rw [if_pos hcond]
          exact fineLoop_fixed stepFine a _ S hf 12 _
        · rw [if_neg hcond]
      rw [h1]
      have h2 : powerLoop (fun t p => stepMain t a p) 17 20 S = S :=
        powerLoop_fixed _ S (fun p => hm a p) 17 20
      rw [h2]
      by_cases hb : S.2 < 1
      · rw [if_pos hb]
      · rw [if_neg hb, ih]
    · rw [if_neg h]

theorem evalCandidate_const_fixed (T : TrajectoryResult) (birdType : BirdType)
    (target : TargetInfo) (slingshotPos : Vec2) (useSkill : Bool)
    (A : AimingInfo) (angle power : ℝ) :
    evalCandidate (fun _ _ => T) birdType target slingshotPos useSkill
      (A, constErrPercent T target) angle power = (A, constErrPercent T target) := by
  simp only [evalCandidate]
  rw [candEval_const_err]
  rw [if_neg (lt_irrefl _)]

theorem evalCandidateFine_const_fixed (T : TrajectoryResult) (birdType : BirdType)
    (target : TargetInfo) (slingshotPos : Vec2) (useSkill : Bool)
    (A : AimingInfo) (angle power : ℝ) :
    evalCandidateFine (fun _ _ => T) birdType target slingshotPos useSkill
      (A, constErrPercent T target) angle power = (A, constErrPercent T target) := by
  simp only [evalCandidateFine]
  rw [candEval_const_err]
  rw [if_neg (lt_irrefl _)]

theorem evalCandidate_const_first (T : TrajectoryResult) (birdType : BirdType)
    (target : TargetInfo) (slingshotPos : Vec2) (useSkill : Bool)
    (angle power : ℝ) (h : constErrPercent T target < floatMax) :
    (evalCandidate (fun _ _ => T) birdType target slingshotPos useSkill
       (AimingInfo.mk0, floatMax) angle power).2 = constErrPercent T target ∧
    (evalCandidate (fun _ _ => T) birdType target slingshotPos useSkill
       (AimingInfo.mk0, floatMax) angle power).1.isValid = true ∧
    (evalCandidate (fun _ _ => T) birdType target slingshotPos useSkill
       (AimingInfo.mk0, floatMax) angle power).1.trajectoryError
      = constErrPercent T target ∧
    (evalCandidate (fun _ _ => T) birdType target slingshotPos useSkill
       (AimingInfo.mk0, floatMax) angle power).1.trajectoryPoints = T.points := by
  simp only [evalCandidate]
  rw [candEval_const_err, candEval_const_traj]
  rw [if_pos h]
  exact ⟨rfl, rfl, rfl, rfl⟩

theorem optimize_const (T : TrajectoryResult) (birdType : BirdType)
    (target : TargetInfo) (slingshotPos : Vec2)
    (h : constErrPercent T target < floatMax) :
    (optimizeLaunchParameters (fun _ _ => T) birdType target slingshotPos).isValid = true ∧
    (optimizeLaunchParameters (fun _ _ => T) birdType target slingshotPos).trajectoryError
      = constErrPercent T target ∧
    (optimizeLaunchParameters (fun _ _ => T) birdType target slingshotPos).trajectoryPoints
      = T.points := by
  have hfe := evalCandidate_const_first T birdType target slingshotPos
    (decide (birdType = BirdType.Yellow)) 5 20 h
  set S1 := evalCandidate (fun _ _ => T) birdType target slingshotPos
    (decide (birdType = BirdType.Yellow)) (AimingInfo.mk0, floatMax) 5 20 with hS1
  have hSeta : S1 = (S1.1, constErrPercent T target) := Prod.ext rfl hfe.1
  have hfixM : ∀ a p, evalCandidate (fun _ _ => T) birdType target slingshotPos
      (decide (birdType = BirdType.Yellow)) (S1.1, constErrPercent T target) a p
        = (S1.1, constErrPercent T target) :=
    fun a p => evalCandidate_const_fixed T birdType target slingshotPos _ S1.1 a p
  have hfixF : ∀ a p, evalCandidateFine (fun _ _ => T) birdType target slingshotPos
      (decide (birdType = BirdType.Yellow)) (S1.1, constErrPercent T target) a p
        = (S1.1, constErrPercent T target) :=
    fun a p => evalCandidateFine_const_fixed T birdType target slingshotPos _ S1.1 a p
  have hfine : ¬ ((((AimingInfo.mk0, floatMax) : GridState)).2 < 3 ∧ (5 : ℝ) > 5) :=
    fun hcon => absurd hcon.2 (lt_irrefl 5)
  have hmain : optimizeLaunchParameters (fun _ _ => T) birdType target slingshotPos
      = S1.1 := by
    simp only [optimizeLaunchParameters]
    rw [show (60 : ℕ) = 59 + 1 from rfl]
    rw [angleLoop_succ]
    rw [if_pos (by norm_num : (5 : ℝ) ≤ 85)]
    rw [if_neg hfine]
    rw [show (17 : ℕ) = 16 + 1 from rfl]
    rw [powerLoop_succ]
    rw [if_pos (by norm_num : (20 : ℝ) ≤ 100)]
    rw [← hS1, hSeta]
    rw [powerLoop_fixed
      (fun t p => evalCandidate (fun _ _ => T) birdType target slingshotPos
        (decide (birdType = BirdType.Yellow)) t 5 p)
      ((S1.1, constErrPercent T target)) (fun p => hfixM 5 p)]
    rw [angleLoop_fixed
      (evalCandidate (fun _ _ => T) birdType target slingshotPos
        (decide (birdType = BirdType.Yellow)))
      (evalCandidateFine (fun _ _ => T) birdType target slingshotPos
        (decide (birdType = BirdType.Yellow)))
      (if birdType = BirdType.Bomb then 1.5 else 2)
      ((S1.1, constErrPercent T target)) hfixM hfixF]
    rw [ite_self]
  rw [hmain]
  exact ⟨hfe.2.1, hfe.2.2.1, hfe.2.2.2⟩

theorem optimize_first_valid (calcTraj : Vec2 → ℝ → TrajectoryResult)
    (birdType : BirdType) (target : TargetInfo) (slingshotPos : Vec2)
    (hfirst : (candEval calcTraj birdType target 5 20).2.2 < floatMax) :
    (optimizeLaunchParameters calcTraj birdType target slingshotPos).isValid = true := by
  have hfine : ¬ ((((AimingInfo.mk0, floatMax) : GridState)).2 < 3 ∧ (5 : ℝ) > 5) :=
    fun hcon => absurd hcon.2 (lt_irrefl 5)
  simp only [optimizeLaunchParameters]
  rw [show (60 : ℕ) = 59 + 1 from rfl]
  rw [angleLoop_succ]
  rw [if_pos (by norm_num : (5 : ℝ) ≤ 85)]
  rw [if_neg hfine]
  rw [show (17 : ℕ) = 16 + 1 from rfl]
  rw [powerLoop_succ]
  rw [if_pos (by norm_num : (20 : ℝ) ≤ 100)]
  have hS1 : (evalCandidate calcTraj birdType target slingshotPos
      (decide (birdType = BirdType.Yellow)) (AimingInfo.mk0, floatMax) 5 20).1.isValid
        = true := by
    simp only [evalCandidate]
    rw [if_pos hfirst]
  have h2 : ((powerLoop (fun t p => evalCandidate calcTraj birdType target slingshotPos
      (decide (birdType = BirdType.Yellow)) t 5 p) 16 (20 + 5)
      (evalCandidate calcTraj birdType target slingshotPos
        (decide (birdType = BirdType.Yellow)) (AimingInfo.mk0, floatMax) 5 20)).1).isValid
        = true :=
    powerLoop_pres (fun s => s.1.isValid = true) _
      (fun t p ht => evalCandidate_valid_mono calcTraj birdType target slingshotPos _ t 5 p ht)
      16 _ _ hS1
  split
  · exact h2
  · exact angleLoop_pres (fun s => s.1.isValid = true) _ _ _
      (fun s a p hs => evalCandidate_valid_mono calcTraj birdType target slingshotPos _ s a p hs)
      (fun s a p hs => evalCandidateFine_valid_mono calcTraj birdType target slingshotPos _ s a p hs)
      59 _ _ h2

-- ========== Bisection solver failure lemmas ==========

/-- One-step unfolding of the bisection loop, with the intermediate
quantities of the loop body abstracted as hypothesised variables so that
the equation stays compact. -/
theorem binarySearchLoop_succ (checkPass : Vec2 → ℤ × ℝ) (validate : Vec2 → Bool × ℝ)
    (r minSpeed currentMaxSpeed : ℝ) (fuel : ℕ) (st : BisectState)
    (mid : ℝ) (hmid : mid = (st.lowAngle + st.highAngle) * 0.5)
    (pull : Vec2) (hpull : pull = ⟨Real.cos mid * r, Real.sin mid * r⟩)
    (v0 : Vec2) (hv0 : v0 = config.kSlingshotStiffness • pull)
    (speed : ℝ) (hspeed : speed = length v0)
    (pv : Vec2 × Vec2) (hpv : pv = if speed > currentMaxSpeed then
        ((currentMaxSpeed / speed) • v0,
         Vec2.divR ((currentMaxSpeed / speed) • v0) config.kSlingshotStiffness)
      else (v0, pull))
    (pr : ℤ × ℝ) (hpr : pr = checkPass pv.1)
    (st1 : BisectState) (hst1 : st1 = if pr.1 ≠ -1 ∧ pr.2 < st.bestDistance then
        { st with bestPull := pv.2, bestDistance := pr.2 } else st)
    (st2 : BisectState) (hst2 : st2 = if pr.1 = 0 then { st1 with highAngle := mid }
        else { st1 with lowAngle := mid })
    (fa : ℝ) (hfa : fa = (st2.lowAngle + st2.highAngle) * 0.5)
    (fpull : Vec2) (hfpull : fpull = ⟨Real.cos fa * r, Real.sin fa * r⟩)
    (fv0 : Vec2) (hfv0 : fv0 = config.kSlingshotStiffness • fpull)
    (fspeed : ℝ) (hfspeed : fspeed = length fv0)
    (fpv : Vec2 × Vec2) (hfpv : fpv = if fspeed > currentMaxSpeed then
        ((currentMaxSpeed / fspeed) • fv0,
         Vec2.divR ((currentMaxSpeed / fspeed) • fv0) config.kSlingshotStiffness)
      else (fv0, fpull))
    (vr : Bool × ℝ) (hvr : vr = validate fpv.1) :
    binarySearchLoop checkPass validate r minSpeed currentMaxSpeed (fuel + 1) st =
      if speed < minSpeed then
        binarySearchLoop checkPass validate r minSpeed currentMaxSpeed fuel
          { st with lowAngle := mid }
      else if pr.1 ≠ -1 ∧ pr.2 ≤ 30 then
        { st1 with bestPull := pv.2, bestDistance := pr.2, foundValid := true }
      else if pr.1 = -1 then
        binarySearchLoop checkPass validate r minSpeed currentMaxSpeed fuel
          { st1 with lowAngle := mid }
      else if |st2.highAngle - st2.lowAngle| < 0.01 then
        (if vr.1 = true ∧ vr.2 ≤ 30 then
          { st2 with bestPull := fpv.2, bestDistance := vr.2, foundValid := true }
         else st2)
      else binarySearchLoop checkPass validate r minSpeed currentMaxSpeed fuel st2 := by
  subst hmid hpull hv0 hspeed hpv hpr hst1 hst2 hfa hfpull hfv0 hfspeed hfpv hvr
  rfl

/-- When no candidate velocity passes the relaxed check and none passes
the strict validation, the bisection loop never sets foundValid. -/
theorem binarySearchLoop_invalid (checkPass : Vec2 → ℤ × ℝ) (validate : Vec2 → Bool × ℝ)
    (r minSpeed currentMaxSpeed : ℝ)
    (hcp : ∀ v, ¬ (((checkPass v).1 ≠ -1) ∧ (checkPass v).2 ≤ 30))
    (hv : ∀ v, ¬ ((validate v).1 = true ∧ (validate v).2 ≤ 30)) :
    ∀ (fuel : ℕ) (st : BisectState),
      (binarySearchLoop checkPass validate r minSpeed currentMaxSpeed fuel st).foundValid
        = st.foundValid := by
  intro fuel
  induction fuel with
  | zero => intro st; rfl
  | succ n ih =>
    intro st
    obtain ⟨mid, hmid⟩ : ∃ x : ℝ, x = (st.lowAngle + st.highAngle) * 0.5 := ⟨_, rfl⟩
    obtain ⟨pull, hpull⟩ : ∃ x : Vec2, x = (⟨Real.cos mid * r, Real.sin mid * r⟩ : Vec2) :=
      ⟨_, rfl⟩
    obtain ⟨v0, hv0⟩ : ∃ x : Vec2, x = config.kSlingshotStiffness • pull := ⟨_, rfl⟩
    obtain ⟨speed, hspeed⟩ : ∃ x : ℝ, x = length v0 := ⟨_, rfl⟩
    obtain ⟨pv, hpv⟩ : ∃ x : Vec2 × Vec2, x = if speed > currentMaxSpeed then
        ((currentMaxSpeed / speed) • v0,
         Vec2.divR ((currentMaxSpeed / speed) • v0) config.kSlingshotStiffness)
      else (v0, pull) := ⟨_, rfl⟩
    obtain ⟨pr, hpr⟩ : ∃ x : ℤ × ℝ, x = checkPass pv.1 := ⟨_, rfl⟩
    obtain ⟨st1, hst1⟩ : ∃ x : BisectState,
        x = if pr.1 ≠ -1 ∧ pr.2 < st.bestDistance then
          { st with bestPull := pv.2, bestDistance := pr.2 } else st := ⟨_, rfl⟩
    obtain ⟨st2, hst2⟩ : ∃ x : BisectState,
        x = if pr.1 = 0 then { st1 with highAngle := mid }
          else { st1 with lowAngle := mid } := ⟨_, rfl⟩
    obtain ⟨fa, hfa⟩ : ∃ x : ℝ, x = (st2.lowAngle + st2.highAngle) * 0.5 := ⟨_, rfl⟩
    obtain ⟨fpull, hfpull⟩ : ∃ x : Vec2, x = (⟨Real.cos fa * r, Real.sin fa * r⟩ : Vec2) :=
      ⟨_, rfl⟩
    obtain ⟨fv0, hfv0⟩ : ∃ x : Vec2, x = config.kSlingshotStiffness • fpull := ⟨_, rfl⟩
    obtain ⟨fspeed, hfspeed⟩ : ∃ x : ℝ, x = length fv0 := ⟨_, rfl⟩
    obtain ⟨fpv, hfpv⟩ : ∃ x : Vec2 × Vec2, x = if fspeed > currentMaxSpeed then
        ((currentMaxSpeed / fspeed) • fv0,
         Vec2.divR ((currentMaxSpeed / fspeed) • fv0) config.kSlingshotStiffness)
      else (fv0, fpull) := ⟨_, rfl⟩
    obtain ⟨vr, hvr⟩ : ∃ x : Bool × ℝ, x = validate fpv.1 := ⟨_, rfl⟩
    rw [binarySearchLoop_succ checkPass validate r minSpeed currentMaxSpeed n st
      mid hmid pull hpull v0 hv0 speed hspeed pv hpv pr hpr st1 hst1 st2 hst2
      fa hfa fpull hfpull fv0 hfv0 fspeed hfspeed fpv hfpv vr hvr]
    by_cases h1 : speed < minSpeed
    · rw [if_pos h1, ih]
    · rw [if_neg h1]
      have hpr2 : ¬ (pr.1 ≠ -1 ∧ pr.2 ≤ 30) := by rw [hpr]; exact hcp pv.1
      rw [if_neg hpr2]
      have hst1fv : st1.foundValid = st.foundValid := by
        rw [hst1]
        split
        · rfl
        · rfl
      by_cases h3 : pr.1 = -1
      · rw [if_pos h3, ih]
        exact hst1fv
      · rw [if_neg h3]
        have hst2fv : st2.foundValid = st.foundValid := by
          rw [hst2]
          split
          · exact hst1fv
          · exact hst1fv
        by_cases h6 : |st2.highAngle - st2.lowAngle| < 0.01
        · rw [if_pos h6]
          have hvr2 : ¬ (vr.1 = true ∧ vr.2 ≤ 30) := by rw [hvr]; exact hv fpv.1
          rw [if_neg hvr2]
          exact hst2fv
        · rw [if_neg h6, ih]
          exact hst2fv

/-- When no candidate passes, every speed tier fails and the tier loop
returns the invalid aim result. -/
theorem speedLevelLoop_invalid (checkPass : Vec2 → ℤ × ℝ) (validate : Vec2 → Bool × ℝ)
    (slingshotPos : Vec2) (birdType : BirdType)
    (baseMaxInitialSpeed maxPull minAngle maxAngle : ℝ)
    (hcp : ∀ v, ¬ (((checkPass v).1 ≠ -1) ∧ (checkPass v).2 ≤ 30))
    (hv : ∀ v, ¬ ((validate v).1 = true ∧ (validate v).2 ≤ 30)) :
    ∀ (rem level : ℕ),
      (speedLevelLoop checkPass validate slingshotPos birdType
        baseMaxInitialSpeed maxPull minAngle maxAngle rem level).isValid = false := by
  intro rem
  induction rem with
  | zero => intro level; rfl
  | succ n ih =>
    intro level
    simp only [speedLevelLoop]
    have hfv : (binarySearchLoop checkPass validate maxPull
        (baseMaxInitialSpeed * (0.85 : ℝ) ^ level * 0.3)
        (baseMaxInitialSpeed * (0.85 : ℝ) ^ level) 10
        { lowAngle := minAngle, highAngle := maxAngle, bestPull := ⟨0, 0⟩,
          bestDistance := floatMax, foundValid := false }).foundValid = false :=
      binarySearchLoop_invalid checkPass validate _ _ _ hcp hv 10 _
    rw [if_neg (by rw [hfv]; exact Bool.false_ne_true)]
    exact ih (level + 1)

/-- When no candidate passes either classifier, the bisection solver
returns an invalid aim result. -/
theorem calculateTrajectoryBisect_invalid (checkPass : Vec2 → ℤ × ℝ)
    (validate : Vec2 → Bool × ℝ) (slingshotPos targetPos : Vec2) (birdType : BirdType)
    (hcp : ∀ v, ¬ (((checkPass v).1 ≠ -1) ∧ (checkPass v).2 ≤ 30))
    (hv : ∀ v, ¬ ((validate v).1 = true ∧ (validate v).2 ≤ 30)) :
    (calculateTrajectoryBisect checkPass validate slingshotPos targetPos birdType).isValid
      = false := by
  simp only [calculateTrajectoryBisect]
  split
  · rfl
  · exact speedLevelLoop_invalid checkPass validate slingshotPos birdType
      _ _ _ _ hcp hv 5 0

-- ========== Strict validator invariant lemmas ==========

/-- A fold check that passes certifies the 60-degree condition on the
triple it inspected. -/
theorem tripleOK_of_foldBadCheck (p1 p0 : Vec2) (rest : List Vec2)
    (vel2 pv2 pos2 : Vec2)
    (h : foldBadCheck (p1 :: p0 :: rest) vel2 pv2 pos2 = false) :
    tripleOK p0 p1 pos2 := by
  intro hlen1 hlen2
  simp only [foldBadCheck] at h
  rw [if_pos ⟨hlen1, hlen2⟩] at h
  by_contra hd
  push_neg at hd
  rw [if_pos hd] at h
  by_cases hnv : ¬ (|vel2.y| < 50 ∨ (pv2.y < 0 ∧ vel2.y > 0))
  · rw [if_pos hnv] at h
    exact Bool.noConfusion h
  · rw [if_neg hnv] at h
    rw [if_pos (lt_trans hd (by norm_num))] at h
    exact Bool.noConfusion h

/-- One-step unfolding of the validator loop, with the intermediate
quantities abstracted as hypothesised variables. -/
theorem validateLoop_succ (targetPos : Vec2) (minX maxX : ℝ) (fuel step : ℕ)
    (st : ValidateState)
    (vel1 : Vec2) (hvel1 : vel1 = ⟨st.vel.x, st.vel.y + config.kGravity * 0.01⟩)
    (currentSpeed : ℝ) (hcs : currentSpeed = length vel1)
    (vel2 : Vec2) (hvel2 : vel2 = if currentSpeed > 0.001 then
        vel1 + (0.01 : ℝ) •
          ((config.kAirResistanceAccel * config.kPixelsPerMeter) •
            (⟨vel1.x / currentSpeed, vel1.y / currentSpeed⟩ : Vec2))
      else vel1)
    (prevSpeed : ℝ) (hps : prevSpeed = length st.prevVel)
    (spdChange : ℝ) (hsc : spdChange = if prevSpeed > 0.001 then currentSpeed / prevSpeed
      else 1)
    (earlyFold : Bool) (hef : earlyFold = if spdChange < 0.85 ∧ prevSpeed > 0.001 then
        (if (Vec2.divR st.prevVel prevSpeed).x * (Vec2.divR vel2 currentSpeed).x +
            (Vec2.divR st.prevVel prevSpeed).y * (Vec2.divR vel2 currentSpeed).y < 0.98
         then true else false)
      else false)
    (nextPos : Vec2) (hnp : nextPos = st.pos + (0.01 : ℝ) • vel2)
    (foldBad : Bool) (hfb : foldBad = foldBadCheck st.pts vel2 vel2 nextPos)
    (dist : ℝ) (hdist : dist = distance nextPos targetPos)
    (st2 : ValidateState) (hst2 : st2 = if dist < st.closestDist then
        { pos := nextPos, vel := vel2, prevVel := vel2, pts := nextPos :: st.pts,
          closestDist := dist, timeToTarget := (step : ℝ) * 0.01 }
      else
        { pos := nextPos, vel := vel2, prevVel := vel2, pts := nextPos :: st.pts,
          closestDist := st.closestDist, timeToTarget := st.timeToTarget }) :
    validateLoop targetPos minX maxX (fuel + 1) step st =
      if earlyFold = true then (st, false)
      else if nextPos.x < minX ∨ nextPos.x > maxX then (st, false)
      else if foldBad = true then (st, false)
      else if nextPos.y > config.kWindowHeight + 200 then (st2, true)
      else if step > 100 ∧ nextPos.x > targetPos.x ∧ dist > st2.closestDist * 2 then
        (st2, true)
      else validateLoop targetPos minX maxX fuel (step + 1) st2 := by
  subst hvel1 hcs hvel2 hps hsc hef hnp hfb hdist hst2
  rfl

/-- Every recorded point of the validator stays in the x-span, and the
recorded point list never contains a fold sharper than the 60-degree
threshold: both hold as loop invariants. -/
theorem validateLoop_inv (targetPos : Vec2) (minX maxX : ℝ) :
    ∀ (fuel step : ℕ) (st : ValidateState),
      inSpan st.pts minX maxX → noFoldRev st.pts →
      inSpan (validateLoop targetPos minX maxX fuel step st).1.pts minX maxX ∧
      noFoldRev (validateLoop targetPos minX maxX fuel step st).1.pts := by
  intro fuel
  induction fuel with
  | zero => intro step st h1 h2; exact ⟨h1, h2⟩
  | succ n ih =>
    intro step st h1 h2
    obtain ⟨vel1, hvel1⟩ : ∃ x : Vec2,
        x = (⟨st.vel.x, st.vel.y + config.kGravity * 0.01⟩ : Vec2) := ⟨_, rfl⟩
    obtain ⟨currentSpeed, hcs⟩ : ∃ x : ℝ, x = length vel1 := ⟨_, rfl⟩
    obtain ⟨vel2, hvel2⟩ : ∃ x : Vec2, x = if currentSpeed > 0.001 then
        vel1 + (0.01 : ℝ) •
          ((config.kAirResistanceAccel * config.kPixelsPerMeter) •
            (⟨vel1.x / currentSpeed, vel1.y / currentSpeed⟩ : Vec2))
      else vel1 := ⟨_, rfl⟩
    obtain ⟨prevSpeed, hps⟩ : ∃ x : ℝ, x = length st.prevVel := ⟨_, rfl⟩
    obtain ⟨spdChange, hsc⟩ : ∃ x : ℝ,
        x = if prevSpeed > 0.001 then currentSpeed / prevSpeed else 1 := ⟨_, rfl⟩
    obtain ⟨earlyFold, hef⟩ : ∃ x : Bool,
        x = if spdChange < 0.85 ∧ prevSpeed > 0.001 then
          (if (Vec2.divR st.prevVel prevSpeed).x * (Vec2.divR vel2 currentSpeed).x +
              (Vec2.divR st.prevVel prevSpeed).y * (Vec2.divR vel2 currentSpeed).y < 0.98
           then true else false)
        else false := ⟨_, rfl⟩
    obtain ⟨nextPos, hnp⟩ : ∃ x : Vec2, x = st.pos + (0.01 : ℝ) • vel2 := ⟨_, rfl⟩
    obtain ⟨foldBad, hfb⟩ : ∃ x : Bool, x = foldBadCheck st.pts vel2 vel2 nextPos :=
      ⟨_, rfl⟩
    obtain ⟨dist, hdist⟩ : ∃ x : ℝ, x = distance nextPos targetPos := ⟨_, rfl⟩
    obtain ⟨st2, hst2⟩ : ∃ x : ValidateState, x = if dist < st.closestDist then
        { pos := nextPos, vel := vel2, prevVel := vel2, pts := nextPos :: st.pts,
          closestDist := dist, timeToTarget := (step : ℝ) * 0.01 }
      else
        { pos := nextPos, vel := vel2, prevVel := vel2, pts := nextPos :: st.pts,
          closestDist := st.closestDist, timeToTarget := st.timeToTarget } := ⟨_, rfl⟩
    rw [validateLoop_succ targetPos minX maxX n step st vel1 hvel1 currentSpeed hcs
      vel2 hvel2 prevSpeed hps spdChange hsc earlyFold hef nextPos hnp foldBad hfb
      dist hdist st2 hst2]
    by_cases e1 : earlyFold = true
    · rw [if_pos e1]; exact ⟨h1, h2⟩
    · rw [if_neg e1]
      by_cases e2 : nextPos.x < minX ∨ nextPos.x > maxX
      · rw [if_pos e2]; exact ⟨h1, h2⟩
      · rw [if_neg e2]
        by_cases e3 : foldBad = true
        · rw [if_pos e3]; exact ⟨h1, h2⟩
        · rw [if_neg e3]
          push_neg at e2
          have hst2pts : st2.pts = nextPos :: st.pts := by
            rw [hst2]
            split
            · rfl
            · rfl
          have hspan2 : inSpan st2.pts minX maxX := by
            rw [hst2pts]
            intro p hp
            rcases List.mem_cons.mp hp with hh | hh
            · rw [hh]
              exact e2
            · exact h1 p hh
          have e3f : foldBad = false := by
            revert e3
            cases foldBad
            · intro _; rfl
            · intro hcon; exact absurd rfl hcon
          have hfold2 : noFoldRev st2.pts := by
            rw [hst2pts]
            rcases hpl : st.pts with _ | ⟨p1, l⟩
            · exact trivial
            · rcases l with _ | ⟨p0, rest⟩
              · exact trivial
              · rw [hpl] at h2
                refine ⟨?_, h2⟩
                refine tripleOK_of_foldBadCheck p1 p0 rest vel2 vel2 nextPos ?_
                rw [← hpl, ← hfb]
                exact e3f
          by_cases e4 : nextPos.y > config.kWindowHeight + 200
          · rw [if_pos e4]; exact ⟨hspan2, hfold2⟩
          · rw [if_neg e4]
            by_cases e5 : step > 100 ∧ nextPos.x > targetPos.x ∧ dist > st2.closestDist * 2
            · rw [if_pos e5]; exact ⟨hspan2, hfold2⟩
            · rw [if_neg e5]
              exact ih (step + 1) st2 hspan2 hfold2

-- ========== Claim theorems: no solve while airborne (C8) ==========

/-- Claim C8 counterexample: on a tick with an airborne launched bird but
an active launch cooldown, the update returns through the cooldown branch
without touching the pending-launch flag, so the flag is still true at
the end of the tick (the claim asserts it is false on every such tick). -/
theorem claim8_counterexample :
    hasActiveLaunchedBird c8Birds = true ∧
    (updateB (fun _ _ _ => TargetInfo.mk0) (fun _ _ _ => AimingInfo.mk0)
        ⟨[], [], []⟩ c8State 0.016 c8Birds ⟨200, 500⟩).1.shouldLaunch = true ∧
    (updateB (fun _ _ _ => TargetInfo.mk0) (fun _ _ _ => AimingInfo.mk0)
        ⟨[], [], []⟩ c8State 0.016 c8Birds ⟨200, 500⟩).2 = false := by
  refine ⟨by simp [hasActiveLaunchedBird, c8Birds], ?_, ?_⟩ <;>
    simp [updateB, c8State] <;> norm_num

/-- Claim C8 as amended: on every tick with some previously launched bird
still airborne, the update never reaches the target-selection /
trajectory-solving branch, and — provided the controller is enabled and
the launch cooldown has expired, so the tick actually executes the AI
logic — the pending-launch flag is false at the end of the tick; during
an active cooldown the update returns immediately leaving the flag
unchanged. -/
theorem claim8_amended_airborne_blocks_solving
    (selectFn : BirdType → List TargetInfo → List TargetInfo → TargetInfo)
    (aimFn : BirdType → TargetInfo → Vec2 → AimingInfo)
    (scene : AnalyzedScene) (s : CtrlBState) (dt : ℝ)
    (birds : List BirdInfo) (slingshotPos : Vec2)
    (hair : hasActiveLaunchedBird birds = true) :
    (updateB selectFn aimFn scene s dt birds slingshotPos).2 = false ∧
    (s.enabled = true → s.launchCooldown ≤ 0 →
      (updateB selectFn aimFn scene s dt birds slingshotPos).1.shouldLaunch = false) := by
  constructor
  · by_cases he : s.enabled = false
    · simp [updateB, he]
    · have he2 : s.enabled = true := by revert he; cases s.enabled <;> simp
      by_cases hc : s.launchCooldown > 0
      · simp [updateB, he2, hc]
      · simp [updateB, he2, hc, hair]
  · intro he2 hcool
    have hc : ¬ s.launchCooldown > 0 := not_lt.mpr hcool
    simp [updateB, he2, hc, hair]

/-- Witness for the amended claim C8: with the cooldown expired and an
airborne bird, the tick runs no selection and clears the pending flag. -/
theorem claim8_amended_witness :
    hasActiveLaunchedBird c8Birds = true ∧ c8StateW.enabled = true ∧
    c8StateW.launchCooldown ≤ 0 ∧
    (updateB (fun _ _ _ => TargetInfo.mk0) (fun _ _ _ => AimingInfo.mk0)
        ⟨[], [], []⟩ c8StateW 0.016 c8Birds ⟨200, 500⟩).1.shouldLaunch = false ∧
    (updateB (fun _ _ _ => TargetInfo.mk0) (fun _ _ _ => AimingInfo.mk0)
        ⟨[], [], []⟩ c8StateW 0.016 c8Birds ⟨200, 500⟩).2 = false := by
  have hair : hasActiveLaunchedBird c8Birds = true := by
    simp [hasActiveLaunchedBird, c8Birds]
  have hen : c8StateW.enabled = true := rfl
  have hcool : c8StateW.launchCooldown ≤ 0 := by
    simp [c8StateW, c8State]
  have happ := claim8_amended_airborne_blocks_solving
    (fun _ _ _ => TargetInfo.mk0) (fun _ _ _ => AimingInfo.mk0)
    ⟨[], [], []⟩ c8StateW 0.016 c8Birds ⟨200, 500⟩ hair
  exact ⟨hair, hen, hcool, happ.2 hen hcool, happ.1⟩

-- ========== Generic fold lemmas for the selection loops ==========

theorem foldl_pres {α σ : Type} (P : σ → Prop) (f : σ → α → σ)
    (hf : ∀ s a, P s → P (f s a)) :
    ∀ (l : List α) (s : σ), P s → P (l.foldl f s) := by
  intro l
  induction l with
  | nil => intro s hs; exact hs
  | cons b t ih => intro s hs; exact ih _ (hf s b hs)

theorem foldl_achieves {α σ : Type} (P Inv : σ → Prop) (Q : α → Prop) (f : σ → α → σ)
    (hP : ∀ s a, P s → P (f s a))
    (hstep : ∀ s a, Inv s → P (f s a) ∨ Inv (f s a))
    (hkey : ∀ s a, Inv s → Q a → P (f s a)) :
    ∀ (l : List α) (s : σ), Inv s → (∃ a ∈ l, Q a) → P (l.foldl f s) := by
  intro l
  induction l with
  | nil =>
    rintro s _ ⟨a, ha, _⟩
    exact absurd ha (List.not_mem_nil a)
  | cons b t ih =>
    rintro s hInv ⟨a, ha, hQ⟩
    rcases List.mem_cons.mp ha with rfl | hat
    · exact foldl_pres P f hP t _ (hkey s a hInv hQ)
    · rcases hstep s b hInv with hp | hi
      · exact foldl_pres P f hP t _ hp
      · exact ih _ hi ⟨a, hat, hQ⟩

theorem redPass1_cases (s : Option AITarget × ℝ) (t : AITarget) :
    redPass1Step s t = s ∨ (redPass1Step s t).1 = some t := by
  simp only [redPass1Step]
  split_ifs <;> simp

theorem redPass2_cases (s : Option AITarget × ℝ) (t : AITarget) :
    redPass2Step s t = s ∨ (redPass2Step s t).1 = some t := by
  simp only [redPass2Step]
  split_ifs <;> simp

theorem yellowPass1_cases (s : Option AITarget × ℝ) (t : AITarget) :
    yellowPass1Step s t = s ∨ (yellowPass1Step s t).1 = some t := by
  simp only [yellowPass1Step]
  split_ifs <;> simp

theorem yellowPass2_cases (s : Option AITarget × ℝ) (t : AITarget) :
    yellowPass2Step s t = s ∨ (yellowPass2Step s t).1 = some t := by
  simp only [yellowPass2Step]
  split_ifs <;> simp

theorem yellowPass3_cases (s : Option AITarget × ℝ) (t : AITarget) :
    yellowPass3Step s t = s ∨ (yellowPass3Step s t).1 = some t := by
  simp only [yellowPass3Step]
  split_ifs <;> simp

theorem bombPass1_cases (s : Option AITarget × ℤ × ℝ) (t : AITarget) :
    bombPass1Step s t = s ∨ (bombPass1Step s t).1 = some t := by
  simp only [bombPass1Step]
  split_ifs <;> simp

-- ========== Claim theorems: selection fallback (C7) ==========

/-- Claim C7: whenever the annotated target list contains a live entry
with a sane annotation (non-negative distance below the float maximum
minus the flat penalty, and non-negative protection level), each of the
three selection strategies returns some target: the fallback tiers ensure
that no-target is only returned on an empty or fully destroyed list. -/
theorem claim7_selectors_return_some (targets : List AITarget)
    (h : ∃ t ∈ targets, targetGone t = false ∧ 0 ≤ t.distance ∧
      t.distance + 1000 < floatMax ∧ 0 ≤ t.protectionLevel) :
    (selectRedBirdTarget targets).isSome = true ∧
    (selectYellowBirdTarget targets).isSome = true ∧
    (selectBombBirdTarget targets []).isSome = true := by
  have hne : targets.isEmpty = false := by
    rcases h with ⟨t, ht, _⟩
    cases targets
    · simp at ht
    · rfl
  have hQ : ∃ t ∈ targets, targetGone t = false ∧ 0 ≤ t.distance ∧
      t.distance + 1000 < floatMax ∧ 0 ≤ t.protectionLevel := h
  set Q : AITarget → Prop := fun t => targetGone t = false ∧ 0 ≤ t.distance ∧
      t.distance + 1000 < floatMax ∧ 0 ≤ t.protectionLevel with hQdef
  refine ⟨?_, ?_, ?_⟩
  · -- direct-type strategy
    rw [selectRedBirdTarget, if_neg (by simp [hne])]
    by_cases hs1 : ((targets.foldl redPass1Step (none, floatMax)).1).isSome = true
    · rw [if_pos hs1]; exact hs1
    · rw [if_neg hs1]
      have hInv1 : ((targets.foldl redPass1Step (none, floatMax)).1 = none →
          (targets.foldl redPass1Step (none, floatMax)).2 = floatMax) := by
        refine foldl_pres (fun s => s.1 = none → s.2 = floatMax) redPass1Step
          (fun s a hs => ?_) targets (none, floatMax) (fun _ => rfl)
        rcases redPass1_cases s a with he | he
        · rw [he]; exact hs
        · intro hcon; rw [he] at hcon; exact absurd hcon (by simp)
      refine foldl_achieves (fun s => s.1.isSome = true)
        (fun s => s.1 = none → s.2 = floatMax) Q redPass2Step
        (fun s a hs => ?_) (fun s a hs => ?_) (fun s a hs hq => ?_)
        targets _ hInv1 hQ
      · rcases redPass2_cases s a with he | he
        · rw [he]; exact hs
        · simp [he]
      · rcases redPass2_cases s a with he | he
        · right; rw [he]; exact hs
        · left; simp [he]
      · by_cases hso : s.1.isSome = true
        · rcases redPass2_cases s a with he | he
          · rw [he]; exact hso
          · simp [he]
        · have hn : s.1 = none := Option.not_isSome_iff_eq_none.mp hso
          have h2 : s.2 = floatMax := hs hn
          unfold redPass2Step
          rw [if_neg (by simp [hq.1])]
          rw [if_pos (by rw [h2]; exact hq.2.2.1)]
          rfl
  · -- accelerating-type strategy
    rw [selectYellowBirdTarget, if_neg (by simp [hne])]
    by_cases hs1 : ((targets.foldl yellowPass1Step (none, -1)).1).isSome = true
    · rw [if_pos hs1]; exact hs1
    · rw [if_neg hs1]
      have hInv1 : ((targets.foldl yellowPass1Step (none, -1)).1 = none →
          (targets.foldl yellowPass1Step (none, -1)).2 = -1) := by
        refine foldl_pres (fun s => s.1 = none → s.2 = -1) yellowPass1Step
          (fun s a hs => ?_) targets (none, -1) (fun _ => rfl)
        rcases yellowPass1_cases s a with he | he
        · rw [he]; exact hs
        · intro hcon; rw [he] at hcon; exact absurd hcon (by simp)
      by_cases hs2 : ((targets.foldl yellowPass2Step
          (targets.foldl yellowPass1Step (none, -1))).1).isSome = true
      · rw [if_pos hs2]; exact hs2
      · rw [if_neg hs2]
        have hInv2 : ((targets.foldl yellowPass2Step
            (targets.foldl yellowPass1Step (none, -1))).1 = none →
            (targets.foldl yellowPass2Step
              (targets.foldl yellowPass1Step (none, -1))).2 = -1) := by
          refine foldl_pres (fun s => s.1 = none → s.2 = -1) yellowPass2Step
            (fun s a hs => ?_) targets _ hInv1
          rcases yellowPass2_cases s a with he | he
          · rw [he]; exact hs
          · intro hcon; rw [he] at hcon; exact absurd hcon (by simp)
        refine foldl_achieves (fun s => s.1.isSome = true)
          (fun s => s.1 = none → s.2 = -1) Q yellowPass3Step
          (fun s a hs => ?_) (fun s a hs => ?_) (fun s a hs hq => ?_)
          targets _ hInv2 hQ
        · rcases yellowPass3_cases s a with he | he
          · rw [he]; exact hs
          · simp [he]
        · rcases yellowPass3_cases s a with he | he
          · right; rw [he]; exact hs
          · left; simp [he]
        · by_cases hso : s.1.isSome = true
          · rcases yellowPass3_cases s a with he | he
            · rw [he]; exact hso
            · simp [he]
          · have hn : s.1 = none := Option.not_isSome_iff_eq_none.mp hso
            have h2 : s.2 = -1 := hs hn
            unfold yellowPass3Step
            rw [if_neg (by simp [hq.1])]
            rw [if_pos (by rw [h2]; linarith [hq.2.1])]
            rfl
  · -- area-effect strategy
    rw [selectBombBirdTarget, if_neg (by simp [hne])]
    have hmain : ((targets.foldl bombPass1Step (none, -1, floatMax)).1).isSome = true := by
      refine foldl_achieves (fun s => s.1.isSome = true)
        (fun s => s.1 = none → s.2.1 = -1) Q bombPass1Step
        (fun s a hs => ?_) (fun s a hs => ?_) (fun s a hs hq => ?_)
        targets (none, -1, floatMax) (fun _ => rfl) hQ
      · rcases bombPass1_cases s a with he | he
        · rw [he]; exact hs
        · simp [he]
      · rcases bombPass1_cases s a with he | he
        · right; rw [he]; exact hs
        · left; simp [he]
      · by_cases hso : s.1.isSome = true
        · rcases bombPass1_cases s a with he | he
          · rw [he]; exact hso
          · simp [he]
        · have hn : s.1 = none := Option.not_isSome_iff_eq_none.mp hso
          have h2 : s.2.1 = -1 := hs hn
          unfold bombPass1Step
          rw [if_neg (by simp [hq.1])]
          rw [if_pos (by rw [h2]; linarith [hq.2.2.2])]
          rfl
    rw [if_pos hmain]
    exact hmain

/-- Witness for claim C7 on a one-element list holding a live exposed
target at distance 500. -/
theorem claim7_witness :
    (∃ t ∈ [c7Target], targetGone t = false ∧ 0 ≤ t.distance ∧
        t.distance + 1000 < floatMax ∧ 0 ≤ t.protectionLevel) ∧
    (selectRedBirdTarget [c7Target]).isSome = true := by
  have hx : ∃ t ∈ [c7Target], targetGone t = false ∧ 0 ≤ t.distance ∧
      t.distance + 1000 < floatMax ∧ 0 ≤ t.protectionLevel := by
    refine ⟨c7Target, List.mem_singleton_self _, ?_, by norm_num [c7Target], ?_,
      by norm_num [c7Target]⟩
    · rfl
    · rw [floatMax]; norm_num [c7Target]
  exact ⟨hx, (claim7_selectors_return_some _ hx).1⟩

-- ========== Claim theorems: occlusion counting (C6) ==========

/-- Claim C6 counterexample: one single live obstacle at (50,0) between
launch point (0,0) and target (100,0) is counted three times — twice by
the path loop (once per covered sample point at x = 40 and x = 60, the
break deduplicates per sample point, not per obstacle) and once by the
local-protection loop — whereas the per-obstacle-deduplicated measure of
the specification yields 2 (one path occlusion plus one local). -/
theorem claim6_counterexample :
    calculateOcclusionLevel ⟨0, 0⟩ ⟨100, 0⟩ [⟨⟨50, 0⟩, false⟩] = 3 ∧
    specProtectionDepth ⟨0, 0⟩ ⟨100, 0⟩ [⟨⟨50, 0⟩, false⟩] = 2 := by
  have hsub : (⟨100, 0⟩ : Vec2) - ⟨0, 0⟩ = ⟨100, 0⟩ := by
    rw [sub_mk]; norm_num
  have hlen : length ⟨100, 0⟩ = 100 := length_eq _ _ _ (by norm_num) (by norm_num)
  have hfloor : (⌊(100 : ℝ) / 20⌋₊ : ℕ) = 5 := by
    rw [show (100 : ℝ) / 20 = 5 by norm_num]
    simp
  have hd20 : distance ⟨20, 0⟩ ⟨50, 0⟩ = 30 := distance_eq _ _ _ (by norm_num) (by norm_num)
  have hd40 : distance ⟨40, 0⟩ ⟨50, 0⟩ = 10 := distance_eq _ _ _ (by norm_num) (by norm_num)
  have hd60 : distance ⟨60, 0⟩ ⟨50, 0⟩ = 10 := distance_eq _ _ _ (by norm_num) (by norm_num)
  have hd80 : distance ⟨80, 0⟩ ⟨50, 0⟩ = 30 := distance_eq _ _ _ (by norm_num) (by norm_num)
  have hdLocal : distance ⟨50, 0⟩ ⟨100, 0⟩ = 50 := distance_eq _ _ _ (by norm_num) (by norm_num)
  constructor
  · simp only [calculateOcclusionLevel, hsub, hlen, hfloor]
    rw [if_neg (by norm_num : ¬ (100 : ℝ) < 1)]
    rw [show (5 : ℕ) - 1 = 4 from rfl, show List.range' 1 4 = [1, 2, 3, 4] from rfl]
    simp only [List.foldl_cons, List.foldl_nil, List.any_cons, List.any_nil]
    norm_num [add_mk, smul_mk, hd20, hd40, hd60, hd80, hdLocal]
  · simp only [specProtectionDepth, hsub, hlen, hfloor]
    rw [if_neg (by norm_num : ¬ (100 : ℝ) < 1)]
    rw [show (5 : ℕ) - 1 = 4 from rfl, show List.range' 1 4 = [1, 2, 3, 4] from rfl]
    simp only [List.filter, List.any_cons, List.any_nil]
    norm_num [add_mk, smul_mk, hd20, hd40, hd60, hd80, hdLocal]

/-- Claim C6 as amended: the path-occlusion measure deduplicates per
sample point, not per obstacle — the combined depth equals the number of
sample points (indices 1 to samplePoints-1) having any live block within
the footprint radius, plus the number of live blocks within 100 px of the
target — and the returned combined depth is a non-negative integer. -/
theorem claim6_amended_occlusion (fromPos toPos : Vec2) (blocks : List BlockInfo) :
    calculateOcclusionLevel fromPos toPos blocks =
      (if length (toPos - fromPos) < 1 then 0
       else
        ((List.range' 1 (⌊length (toPos - fromPos) / 20⌋₊ - 1)).countP
            (sampleOccludedAt fromPos toPos blocks) : ℤ)
          + (blocks.countP (nearTargetBlock toPos) : ℤ)) ∧
    0 ≤ calculateOcclusionLevel fromPos toPos blocks := by
  have key : calculateOcclusionLevel fromPos toPos blocks =
      (if length (toPos - fromPos) < 1 then 0
       else
        ((List.range' 1 (⌊length (toPos - fromPos) / 20⌋₊ - 1)).countP
            (sampleOccludedAt fromPos toPos blocks) : ℤ)
          + (blocks.countP (nearTargetBlock toPos) : ℤ)) := by
    simp only [calculateOcclusionLevel]
    by_cases h : length (toPos - fromPos) < 1
    · rw [if_pos h, if_pos h]
    · rw [if_neg h, if_neg h]
      have hext : ∀ X : ℤ, blocks.foldl
          (fun acc block =>
            if block.destroyed = true then acc
            else if distance block.position toPos < 100 then acc + 1 else acc) X
          = blocks.foldl (fun (acc : ℤ) block =>
              if nearTargetBlock toPos block = true then acc + 1 else acc) X :=
        fun X => List.foldl_ext _ _ X (fun a block _ => by
          simp only [nearTargetBlock]
          by_cases hb : block.destroyed = true
          · simp [hb]
          · by_cases hdist : distance block.position toPos < 100
            · simp [hb, hdist]
            · simp [hb, hdist])
      have e2 : ∀ X : ℤ, blocks.foldl
          (fun acc block =>
            if block.destroyed = true then acc
            else if distance block.position toPos < 100 then acc + 1 else acc) X
          = X + (blocks.countP (nearTargetBlock toPos) : ℤ) :=
        fun X => (hext X).trans (foldl_count _ _ X)
      rw [e2]
      have e1 : (List.range' 1 (⌊length (toPos - fromPos) / 20⌋₊ - 1)).foldl
          (fun (acc : ℤ) (i : ℕ) =>
            if sampleOccludedAt fromPos toPos blocks i = true then acc + 1 else acc) 0
          + (blocks.countP (nearTargetBlock toPos) : ℤ)
          = ((List.range' 1 (⌊length (toPos - fromPos) / 20⌋₊ - 1)).countP
              (sampleOccludedAt fromPos toPos blocks) : ℤ)
            + (blocks.countP (nearTargetBlock toPos) : ℤ) := by
        rw [foldl_count]; ring
      exact e1
  refine ⟨key, ?_⟩
  rw [key]
  by_cases h : length (toPos - fromPos) < 1
  · rw [if_pos h]
  · rw [if_neg h]
    positivity

-- ========== Claim theorems: stale-target launch (C4) ==========

/-- Claim C4 counterexample: in a state whose every pig (and in
particular the referenced selected target) is destroyed, the sequencer
still emits the launch: no liveness check precedes the launch command. -/
theorem claim4_counterexample :
    (c4State.pigs.all fun p => p.destroyed) = true ∧
    c4State.selectedTargetPig = some 0 ∧
    handleAIControl c4State = true := by
  have hd : distance ⟨200, 500⟩ ⟨200, 500⟩ = 0 := by
    rw [distance]
    norm_num
  refine ⟨rfl, rfl, ?_⟩
  simp only [handleAIControl, c4State]
  norm_num [List.find?, hd]

/-- Claim C4 as amended: the sequencer performs no liveness check on the
selected target.  The launch is emitted exactly when autonomous mode is
on, a pending launch flag and a valid aim are present, and the first
unlaunched bird has a body and sits within 20 px of the slingshot — the
pig list and the selected-target reference never enter the decision, so
replacing them (in particular destroying the selected target) cannot
abort the launch. -/
theorem claim4_amended_no_liveness_check (s : GameAIState) :
    (handleAIControl s = true ↔
      s.aiModeEnabled = true ∧ s.shouldLaunch = true ∧ s.aimIsValid = true ∧
      ∃ b, s.birds.find? (fun x => !x.launched) = some b ∧ b.hasBody = true ∧
        distance b.position s.slingshotPos ≤ 20) ∧
    (∀ pigs sel, handleAIControl { s with pigs := pigs, selectedTargetPig := sel }
        = handleAIControl s) := by
  constructor
  · unfold handleAIControl
    cases hmode : s.aiModeEnabled
    · simp
    · simp only [Bool.true_eq_false, if_false, if_neg (by simp : ¬ (true = false))]
      by_cases hE : s.birds.isEmpty = true
      · rw [if_pos hE]
        have : s.birds = [] := List.isEmpty_iff.mp hE
        simp [this]
      · rw [if_neg hE]
        rcases hf : s.birds.find? (fun x => !x.launched) with _ | b
        · simp [hf]
        · have hbl : b.launched = false := by
            have := List.find?_some hf
            simpa using this
          by_cases hsl : s.shouldLaunch
          · by_cases hbd : b.hasBody
            · by_cases hdist : distance b.position s.slingshotPos > 20
              · simp [hf, hsl, hbd, hbl, hdist, not_le.mpr hdist]
              · by_cases hv : s.aimIsValid
                · simp [hf, hsl, hbd, hbl, hdist, hv, not_lt.mp hdist]
                · simp [hf, hsl, hbd, hbl, hdist, hv]
            · simp [hf, hsl, hbd]
          · simp [hf, hsl]
  · intro pigs sel
    rfl

-- ========== Claim theorems: failed solves (C2) ==========

/-- C2 (counterexample): in the grid solver every candidate of this solve
misses the target by a kilometre, an error of over three million percent
of the target size, far beyond any acceptance tolerance, yet the returned
aim result carries isValid = true, so the caller would launch from a
failed solve. -/
theorem claim2_counterexample :
    constErrPercent trajFar c2Target = 10000000 / 3 ∧
    (8 : ℝ) < 10000000 / 3 ∧
    (optimizeLaunchParameters (fun _ _ => trajFar) BirdType.Red c2Target
      ⟨200, 500⟩).isValid = true ∧
    (optimizeLaunchParameters (fun _ _ => trajFar) BirdType.Red c2Target
      ⟨200, 500⟩).trajectoryError = 10000000 / 3 := by
  have hval : constErrPercent trajFar c2Target = 10000000 / 3 := by
    norm_num [constErrPercent, trajFar, c2Target, max_self]
  have hlt : constErrPercent trajFar c2Target < floatMax := by
    rw [hval]
    norm_num [floatMax]
  have hopt := optimize_const trajFar BirdType.Red c2Target ⟨200, 500⟩ hlt
  exact ⟨hval, by norm_num, hopt.1, hval ▸ hopt.2.1⟩

/-- C2: for the bisection solver of the state-machine controller the
claim holds: when no evaluated candidate passes the relaxed pass check
and none passes the strict validation within the 30-pixel tolerance, the
returned aim result carries isValid = false. -/
theorem claim2_amended_bisect_failed_solve_invalid
    (checkPass : Vec2 → ℤ × ℝ) (validate : Vec2 → Bool × ℝ)
    (slingshotPos targetPos : Vec2) (birdType : BirdType)
    (hcp : ∀ v, ¬ (((checkPass v).1 ≠ -1) ∧ (checkPass v).2 ≤ 30))
    (hv : ∀ v, ¬ ((validate v).1 = true ∧ (validate v).2 ≤ 30)) :
    (calculateTrajectoryBisect checkPass validate slingshotPos targetPos
      birdType).isValid = false :=
  calculateTrajectoryBisect_invalid checkPass validate slingshotPos targetPos
    birdType hcp hv

/-- C2 witness: concrete oracles under which every candidate fails, at a
concrete scene. -/
theorem claim2_witness :
    (calculateTrajectoryBisect (fun _ => ((-1 : ℤ), 1000)) (fun _ => (false, 1000))
      ⟨200, 500⟩ ⟨800, 300⟩ BirdType.Red).isValid = false :=
  claim2_amended_bisect_failed_solve_invalid (fun _ => ((-1 : ℤ), 1000))
    (fun _ => (false, 1000)) ⟨200, 500⟩ ⟨800, 300⟩ BirdType.Red
    (fun _ hcon => hcon.1 rfl)
    (fun _ hcon => Bool.noConfusion hcon.1)

-- ========== Claim theorems: accepted trajectories (C3) ==========

/-- C3 (counterexample): the grid solver accepts an aim whose stored
simulated trajectory folds back on itself by far more than 60 degrees and
leaves the horizontal span between launch x = 200 and target x = 800 by
100 pixels, violating both spec validity conditions even with a generous
50-pixel tolerance. -/
theorem claim3_counterexample :
    (optimizeLaunchParameters (fun _ _ => trajFold) BirdType.Red c2Target
      ⟨200, 500⟩).isValid = true ∧
    (optimizeLaunchParameters (fun _ _ => trajFold) BirdType.Red c2Target
      ⟨200, 500⟩).trajectoryPoints = trajFold.points ∧
    specFoldBreak ⟨200, 500⟩ ⟨900, 400⟩ ⟨200, 500⟩ ∧
    specSpanBreak ⟨900, 400⟩ 200 800 50 ∧
    ¬ specTrajectoryValid trajFold.points 200 800 50 := by
  have hval : constErrPercent trajFold c2Target = 0 := by
    norm_num [constErrPercent, trajFold, c2Target, max_self]
  have hlt : constErrPercent trajFold c2Target < floatMax := by
    rw [hval]
    norm_num [floatMax]
  have hopt := optimize_const trajFold BirdType.Red c2Target ⟨200, 500⟩ hlt
  have hmax : max (200 : ℝ) 800 = 800 := max_eq_right (by norm_num)
  refine ⟨hopt.1, hopt.2.2, ?_, ?_, ?_⟩
  · simp only [specFoldBreak]
    have e1 : ((⟨900, 400⟩ : Vec2) - ⟨200, 500⟩) = (⟨700, -100⟩ : Vec2) := by
      rw [sub_mk]
      norm_num [Vec2.mk.injEq]
    have e2 : ((⟨200, 500⟩ : Vec2) - ⟨900, 400⟩) = (⟨-700, 100⟩ : Vec2) := by
      rw [sub_mk]
      norm_num [Vec2.mk.injEq]
    rw [e1, e2]
    have h1 := length_nonneg (⟨700, -100⟩ : Vec2)
    have h2 := length_nonneg (⟨-700, 100⟩ : Vec2)
    have hx : ((⟨700, -100⟩ : Vec2)).x * ((⟨-700, 100⟩ : Vec2)).x +
        ((⟨700, -100⟩ : Vec2)).y * ((⟨-700, 100⟩ : Vec2)).y = -500000 := by
      norm_num
    rw [hx]
    nlinarith [mul_nonneg h1 h2]
  · simp only [specSpanBreak]
    rw [hmax]
    norm_num
  · intro hcon
    have hmem : (⟨900, 400⟩ : Vec2) ∈ trajFold.points := by
      simp [trajFold, Vec2.mk.injEq]
    have hsp := hcon.2 ⟨900, 400⟩ hmem
    exact absurd hsp.2 (by rw [hmax]; norm_num)

/-- C3 (amended): the strict validator itself does enforce both
conditions on every recorded point: each simulated point stays within
the exact horizontal span between the launch x and the target x (no
tolerance), and no consecutive-segment direction change exceeds the
60-degree threshold — the stricter 30-degree near-apex branch of the
source is unreachable, so 60 degrees is the only bound enforced. -/
theorem claim3_amended_validator_points_in_span_without_folds
    (slingshotPos targetPos initialVelocity : Vec2) :
    inSpan (validateLoop targetPos (min slingshotPos.x targetPos.x)
        (max slingshotPos.x targetPos.x) 1500 0
        (validateInit slingshotPos initialVelocity)).1.pts
      (min slingshotPos.x targetPos.x) (max slingshotPos.x targetPos.x) ∧
    noFoldRev (validateLoop targetPos (min slingshotPos.x targetPos.x)
        (max slingshotPos.x targetPos.x) 1500 0
        (validateInit slingshotPos initialVelocity)).1.pts := by
  refine validateLoop_inv targetPos _ _ 1500 0 _ ?_ ?_
  · intro p hp
    have hps : p = slingshotPos := by
      simpa [validateInit] using hp
    rw [hps]
    exact ⟨min_le_left _ _, le_max_left _ _⟩
  · exact trivial

end AngryBird
